import Mathlib

/-!
Verification of the riscv-decoder crate: a shallow embedding of the
32-bit RISC-V instruction decoder (`src/decoder.rs`, `src/instructions.rs`)
and of the disassembly renderer (`src/decoded_inst.rs`), together with
theorems settling the specification claims.

Machine words are embedded as `Nat`, with every field extraction masking
explicitly, and `u32` wrap-around written as explicit `% 2 ^ 32` arithmetic.
Fallible Rust functions returning `anyhow::Result` are embedded as
`Except DecodeError`, where the error constructor carries the `context`
string attached at the error site.
-/

namespace RiscvDecoder

/-! ## Bit-field primitives (the `bit_ops` crate, `bitops_u32`) -/

/-- Rust `create_mask(n)`: a word with the low `n` bits set. -/
def create_mask (n : Nat) : Nat := (1 <<< n) - 1

/-- Rust `get_bits(value, n, offset)`: `n` bits of `value` starting at `offset`. -/
def get_bits (v n off : Nat) : Nat := (v >>> off) &&& create_mask n

/-- Rust `get_bit(value, bit)`: the single bit of `value` at position `bit`. -/
def get_bit (v n : Nat) : Nat := (v >>> n) &&& 1

/-- Rust `is_set(value, bit)`: whether the bit of `value` at position `bit` is 1. -/
def is_set (v n : Nat) : Bool := get_bit v n == 1

/-! ## Opcode constants (`src/instructions.rs`) -/

def LOAD_MATCH : Nat := 3
def FENCE_MATCH : Nat := 15
def ARITMETIC_IMMEDIATE_MATCH : Nat := 19
def AUIPC_MATCH : Nat := 23
def LUI_MATCH : Nat := 55
def STORE_MATCH : Nat := 35
def ARITMETIC_REGISTER_MATCH : Nat := 51
def BRANCH_MATCH : Nat := 99
def CSR_MATCH : Nat := 115
def JALR_MATCH : Nat := 103
def JAL_MATCH : Nat := 111
def ATOMIC_MATCH : Nat := 47

/-- Modelled from the spec: `FLOAD_MATCH`, referenced by `decoder.rs` but absent
from the `instructions.rs` revision in the tree; the spec's opcode table gives
7 → I (float load). -/
def FLOAD_MATCH : Nat := 7

/-- Modelled from the spec: `FSTORE_MATCH`; the spec's opcode table gives
39 → S (float store). -/
def FSTORE_MATCH : Nat := 39

/-- Modelled from the spec: `FLOATING_POINT_MATCH`; the spec's opcode table
gives 83 → R (floating point). -/
def FLOATING_POINT_MATCH : Nat := 83

/-- Modelled from the spec: `FMADDD_MATCH`, the distinct opcode of FMADD.D
(value 67 confirmed by the decoder test word `0x0af5f7c3`). -/
def FMADDD_MATCH : Nat := 67

/-- Modelled from the spec: `FMSUBD_MATCH`, the distinct opcode of FMSUB.D
(value 71 confirmed by the decoder test word `0x1207f047`). -/
def FMSUBD_MATCH : Nat := 71

/-- Modelled from the spec: `FNMADDD_MATCH`, the distinct opcode of FNMADD.D. -/
def FNMADDD_MATCH : Nat := 79

/-- Modelled from the spec: `FNMSUBD_MATCH`, the distinct opcode of FNMSUB.D
(value 75 confirmed by the decoder test word `0x5A07F5CB`). -/
def FNMSUBD_MATCH : Nat := 75

def OPCODE_MASK : Nat := create_mask 7
def COMPRESSED_MASK : Nat := create_mask 2

/-! ## Format-view field accessors

All six `bitfield!` views share the positions of `opcode`, `rd`, `funct3`,
`rs1`, `rs2` and `funct7`; each accessor extracts `bit_range(msb, lsb)`,
that is `get_bits w (msb - lsb + 1) lsb`. -/

def opcode (w : Nat) : Nat := get_bits w 7 0
def rd (w : Nat) : Nat := get_bits w 5 7
def funct3 (w : Nat) : Nat := get_bits w 3 12
def rs1 (w : Nat) : Nat := get_bits w 5 15
def rs2 (w : Nat) : Nat := get_bits w 5 20
def funct7 (w : Nat) : Nat := get_bits w 7 25

/-- Modelled from the spec: `IType::imm`, called by `decode_itype` but absent
from the `instructions.rs` revision in the tree (which only declares the
signed bitfield getter `imm1` for bits 31:20).  The 12-bit field is
sign-extended to the full word width; the `if` writes out the signed
bitfield getter followed by the cast back to `u32`. -/
def itype_imm (w : Nat) : Nat :=
  let v := get_bits w 12 20
  if v < 2 ^ 11 then v else v + 0xFFFFF000

/-- Modelled from the spec: `IType::uimm`, the unsigned (zero-extended)
reading of the 12-bit immediate used for CSR addresses and zimm fields. -/
def itype_uimm (w : Nat) : Nat := get_bits w 12 20

/-- Rust `SType::imm`: `self.imm1() | (self.imm2() << 5) as u32`, where `imm1`
is bits 11:7 and `imm2` is the signed bitfield getter for bits 31:25
(sign-extended to `i32`).  The `if` writes out the sign extension of
`imm2` followed by the shift and the cast back to `u32`. -/
def stype_imm (w : Nat) : Nat :=
  let imm2 := get_bits w 7 25
  get_bits w 5 7 ||| (if imm2 < 2 ^ 6 then imm2 <<< 5 else imm2 <<< 5 + 0xFFFFF000)

/-- Rust `BType::imm`: textually the same computation as `SType::imm`
(`self.imm1() | (self.imm2() << 5) as u32`); the B-type view does NOT
interleave the RISC-V B-format immediate bit ranges. -/
def btype_imm (w : Nat) : Nat :=
  let imm2 := get_bits w 7 25
  get_bits w 5 7 ||| (if imm2 < 2 ^ 6 then imm2 <<< 5 else imm2 <<< 5 + 0xFFFFF000)

/-- Modelled from the spec: `UType::imm`, called by `decode_utype` but absent
from the `instructions.rs` revision in the tree; the raw 20-bit upper
immediate left in bit positions 31:12. -/
def utype_imm (w : Nat) : Nat := w &&& 0xFFFFF000

/-- Rust `JType::imm1`: `((get_bit(w, 31) << 31) as i32 >> 11) as u32`; the
arithmetic right shift of the isolated sign bit yields `0xFFF00000`
exactly when bit 31 is set. -/
def jtype_imm1 (w : Nat) : Nat :=
  if get_bit w 31 = 1 then 0xFFF00000 else 0

/-- Rust `JType::imm2`: `get_bits(w, 8, 12) << 12`. -/
def jtype_imm2 (w : Nat) : Nat := get_bits w 8 12 <<< 12

/-- Rust `JType::imm3`: `get_bit(w >> 9, 11) << 11`. -/
def jtype_imm3 (w : Nat) : Nat := get_bit (w >>> 9) 11 <<< 11

/-- Rust `JType::imm4`: `get_bits(w >> 20, 10, 1) << 1`. -/
def jtype_imm4 (w : Nat) : Nat := get_bits (w >>> 20) 10 1 <<< 1

/-- Rust `JType::imm`: the or of the four parts. -/
def jtype_imm (w : Nat) : Nat :=
  jtype_imm1 w ||| jtype_imm2 w ||| jtype_imm3 w ||| jtype_imm4 w

/-! ## Error taxonomy (`src/error.rs` plus the `anyhow` context strings) -/

/-- Rust `DecodeError`, with the `anyhow` context string recorded at the error
site attached to the `UnknownInstructionFormat` case. -/
inductive DecodeError where
  | unknownInstruction (inst : String)
  | unknownInstructionFormat (ctx : String)
deriving DecidableEq

/-! ## The decoded-instruction model (`src/decoded_inst.rs`) -/

/-- Rust `InstructionFormat` (`src/instructions.rs`). -/
inductive InstructionFormat where
  | RType | IType | SType | UType | BType | JType
deriving DecidableEq

/-- Rust `InstructionDecoded`: one constructor per variant, fields in source
order (`InstructionSize` = `u32` becomes `Nat`). -/
inductive InstructionDecoded where
  | Lb (rd rs1 imm : Nat)
  | Lh (rd rs1 imm : Nat)
  | Lw (rd rs1 imm : Nat)
  | Lbu (rd rs1 imm : Nat)
  | Lhu (rd rs1 imm : Nat)
  | Lwu (rd rs1 imm : Nat)
  | Addi (rd rs1 imm : Nat)
  | Slli (rd rs1 imm : Nat)
  | Slti (rd rs1 imm : Nat)
  | Sltiu (rd rs1 imm : Nat)
  | Xori (rd rs1 imm : Nat)
  | Srli (rd rs1 imm : Nat)
  | Srai (rd rs1 imm : Nat)
  | Ori (rd rs1 imm : Nat)
  | Andi (rd rs1 imm : Nat)
  | AuiPc (rd imm : Nat)
  | Sb (rs1 rs2 imm : Nat)
  | Sh (rs1 rs2 imm : Nat)
  | Sw (rs1 rs2 imm : Nat)
  | Add (rd rs1 rs2 : Nat)
  | Sub (rd rs1 rs2 : Nat)
  | Sll (rd rs1 rs2 : Nat)
  | Slt (rd rs1 rs2 : Nat)
  | Sltu (rd rs1 rs2 : Nat)
  | Xor (rd rs1 rs2 : Nat)
  | Srl (rd rs1 rs2 : Nat)
  | Sra (rd rs1 rs2 : Nat)
  | Or (rd rs1 rs2 : Nat)
  | And (rd rs1 rs2 : Nat)
  | Lui (rd imm : Nat)
  | Beq (rs1 rs2 imm : Nat)
  | Bne (rs1 rs2 imm : Nat)
  | Blt (rs1 rs2 imm : Nat)
  | Bge (rs1 rs2 imm : Nat)
  | Bltu (rs1 rs2 imm : Nat)
  | Bgeu (rs1 rs2 imm : Nat)
  | Jalr (rd rs1 imm : Nat)
  | Jal (rd imm : Nat)
  | ECall
  | EBreak
  | SRet
  | MRet
  | SFenceVma
  | CsrRw (rd rs1 imm : Nat)
  | CsrRs (rd rs1 imm : Nat)
  | CsrRc (rd rs1 imm : Nat)
  | CsrRwi (rd rs1 imm : Nat)
  | CsrRsi (rd rs1 imm : Nat)
  | CsrRci (rd rs1 imm : Nat)
  | Fence (pred succ : Nat)
  | FenceI (pred succ : Nat)
  | Flw (rd rs1 imm : Nat)
  | Fsw (rs1 rs2 imm : Nat)
  | FmaddS (rd rs1 rs2 rs3 : Nat)
  | FmsubS (rd rs1 rs2 rs3 : Nat)
  | FnmaddS (rd rs1 rs2 rs3 : Nat)
  | FnmsubS (rd rs1 rs2 rs3 : Nat)
  | FaddS (rd rs1 rs2 : Nat)
  | FsubS (rd rs1 rs2 : Nat)
  | FmulS (rd rs1 rs2 : Nat)
  | FdivS (rd rs1 rs2 : Nat)
  | FsqrtS (rd rs1 : Nat)
  | FsgnjS (rd rs1 rs2 : Nat)
  | FsgnjnS (rd rs1 rs2 : Nat)
  | FsgnjxS (rd rs1 rs2 : Nat)
  | FminS (rd rs1 rs2 : Nat)
  | FmaxS (rd rs1 rs2 : Nat)
  | FcvtSW (rd rs1 : Nat)
  | FcvtSWU (rd rs1 : Nat)
  | FcvtWS (rd rs1 : Nat)
  | FcvtWUS (rd rs1 : Nat)
  | FcvtWD (rd rs1 : Nat)
  | FcvtWUD (rd rs1 : Nat)
  | FcvtDW (rd rs1 : Nat)
  | FcvtDWU (rd rs1 : Nat)
  | FmvXW (rd rs1 : Nat)
  | FmvWX (rd rs1 : Nat)
  | FeqS (rd rs1 rs2 : Nat)
  | FltS (rd rs1 rs2 : Nat)
  | FleS (rd rs1 rs2 : Nat)
  | FClassS (rd rs1 : Nat)
  | FmaddD (rd rs1 rs2 rs3 : Nat)
  | FmsubD (rd rs1 rs2 rs3 : Nat)
  | FnmaddD (rd rs1 rs2 rs3 : Nat)
  | FnmsubD (rd rs1 rs2 rs3 : Nat)
  | Fld (rd rs1 imm : Nat)
  | Fsd (rs1 rs2 imm : Nat)
  | FcvtSD (rd rs1 : Nat)
  | FcvtDS (rd rs1 : Nat)
  | FaddD (rd rs1 rs2 : Nat)
  | FsubD (rd rs1 rs2 : Nat)
  | FmulD (rd rs1 rs2 : Nat)
  | FdivD (rd rs1 rs2 : Nat)
  | FsqrtD (rd rs1 : Nat)
  | FsgnjD (rd rs1 rs2 : Nat)
  | FsgnjnD (rd rs1 rs2 : Nat)
  | FsgnjxD (rd rs1 rs2 : Nat)
  | FminD (rd rs1 rs2 : Nat)
  | FmaxD (rd rs1 rs2 : Nat)
  | FeqD (rd rs1 rs2 : Nat)
  | FltD (rd rs1 rs2 : Nat)
  | FleD (rd rs1 rs2 : Nat)
  | FClassD (rd rs1 : Nat)
  | Mul (rd rs1 rs2 : Nat)
  | Mulh (rd rs1 rs2 : Nat)
  | Mulsu (rd rs1 rs2 : Nat)
  | Mulu (rd rs1 rs2 : Nat)
  | Div (rd rs1 rs2 : Nat)
  | Divu (rd rs1 rs2 : Nat)
  | Rem (rd rs1 rs2 : Nat)
  | Remu (rd rs1 rs2 : Nat)
  | LrW (rd rs1 rs2 : Nat) (rl aq : Bool)
  | ScW (rd rs1 rs2 : Nat) (rl aq : Bool)
  | AmoswapW (rd rs1 rs2 : Nat) (rl aq : Bool)
  | AmoaddW (rd rs1 rs2 : Nat) (rl aq : Bool)
  | AmoandW (rd rs1 rs2 : Nat) (rl aq : Bool)
  | AmoorW (rd rs1 rs2 : Nat) (rl aq : Bool)
  | AmoxorW (rd rs1 rs2 : Nat) (rl aq : Bool)
  | AmomaxW (rd rs1 rs2 : Nat) (rl aq : Bool)
  | AmominW (rd rs1 rs2 : Nat) (rl aq : Bool)
  | CAddi4Spn (rd nzuimm : Nat)
  | CNop
  | CSlli (rd rs1 shamt : Nat)

/-! ## Per-mnemonic immediate discriminants referenced by `decode_itype` -/

/-- Modelled from the spec: `slli::IMM`, the shift-type discriminant (the
upper bits of the 12-bit immediate; the catalog funct7 column gives 0). -/
def slli_IMM : Nat := 0

/-- Modelled from the spec: `srli::IMM` (the catalog funct7 column gives 0). -/
def srli_IMM : Nat := 0

/-- Modelled from the spec: `srai::IMM` (the catalog funct7 column gives 32;
confirmed by the decoder test word `0x4010d093`). -/
def srai_IMM : Nat := 32

/-- Modelled from the spec: `ecall::IMM`, the full 12-bit immediate constant
of ECALL (the spec gives ECALL = 0). -/
def ecall_IMM : Nat := 0

/-- Modelled from the spec: `ebreak::IMM` (the spec gives EBREAK = 1). -/
def ebreak_IMM : Nat := 1

/-- Modelled from the spec: `sret::IMM` (the spec gives SRET = 0x102). -/
def sret_IMM : Nat := 0x102

/-- Modelled from the spec: `mret::IMM` (the spec gives MRET = 0x302). -/
def mret_IMM : Nat := 0x302

/-- Modelled from the spec: `sfencevma::IMM` (the spec gives
SFENCE.VMA = 0x120). -/
def sfencevma_IMM : Nat := 0x120

/-! ## Per-format decoders (`src/decoder.rs`)

Funct3/funct7/funct5/rs2 discriminants are written inline with the values
of the instruction catalog; each arm names its mnemonic through the
constructor it produces.  Float funct5 and funct3 discriminants are
referenced by `decoder.rs` but absent from the `instructions.rs` revision
in the tree; they are modelled from the spec (funct5 = the operation
selector, funct3 the tie-breaker for sign-injection/compare variants,
rs2 the signed/unsigned selector of FCVT), with the values pinned by the
decoder's own test words where available. -/

/-- Rust `decode_single_precision` (arms in source order). -/
def decode_single_precision (inst f3 funct5 : Nat) :
    Except DecodeError InstructionDecoded :=
  if funct5 = 0 then .ok (.FaddS (rd inst) (rs1 inst) (rs2 inst))
  else if funct5 = 1 then .ok (.FsubS (rd inst) (rs1 inst) (rs2 inst))
  else if funct5 = 2 then .ok (.FmulS (rd inst) (rs1 inst) (rs2 inst))
  else if funct5 = 3 then .ok (.FdivS (rd inst) (rs1 inst) (rs2 inst))
  else if funct5 = 11 then .ok (.FsqrtS (rd inst) (rs1 inst))
  else if f3 = 0 ∧ funct5 = 4 then .ok (.FsgnjS (rd inst) (rs1 inst) (rs2 inst))
  else if f3 = 1 ∧ funct5 = 4 then .ok (.FsgnjnS (rd inst) (rs1 inst) (rs2 inst))
  else if f3 = 2 ∧ funct5 = 4 then .ok (.FsgnjxS (rd inst) (rs1 inst) (rs2 inst))
  else if f3 = 0 ∧ funct5 = 5 then .ok (.FminS (rd inst) (rs1 inst) (rs2 inst))
  else if f3 = 1 ∧ funct5 = 5 then .ok (.FmaxS (rd inst) (rs1 inst) (rs2 inst))
  else if funct5 = 24 then
    if rs2 inst = 0 then .ok (.FcvtWS (rd inst) (rs1 inst))
    else if rs2 inst = 1 then .ok (.FcvtWUS (rd inst) (rs1 inst))
    else .error (.unknownInstructionFormat "Unknown Floating Point instruction")
  else if f3 = 2 ∧ funct5 = 20 then .ok (.FeqS (rd inst) (rs1 inst) (rs2 inst))
  else if f3 = 1 ∧ funct5 = 20 then .ok (.FltS (rd inst) (rs1 inst) (rs2 inst))
  else if funct5 = 20 then .ok (.FleS (rd inst) (rs1 inst) (rs2 inst))
  else if f3 = 1 ∧ funct5 = 28 then .ok (.FClassS (rd inst) (rs1 inst))
  else if funct5 = 26 then .ok (.FcvtSW (rd inst) (rs1 inst))
  -- the `fcvt_s_wu` arm of the source; FCVT.S.WU shares funct5 with FCVT.S.W
  else if funct5 = 26 then .ok (.FcvtSWU (rd inst) (rs1 inst))
  else if funct5 = 28 then .ok (.FmvXW (rd inst) (rs1 inst))
  else if funct5 = 30 then .ok (.FmvWX (rd inst) (rs1 inst))
  else if funct5 = 8 then .ok (.FcvtSD (rd inst) (rs1 inst))
  else .error (.unknownInstructionFormat
    "Unknown Single Precision Floating Point instruction")

/-- Rust `decode_double_precision` (arms in source order). -/
def decode_double_precision (inst f3 funct5 : Nat) :
    Except DecodeError InstructionDecoded :=
  if funct5 = 26 then
    if rs2 inst = 0 then .ok (.FcvtDW (rd inst) (rs1 inst))
    else if rs2 inst = 1 then .ok (.FcvtDWU (rd inst) (rs1 inst))
    else .error (.unknownInstructionFormat "Unknown Fcvt D W instruction")
  else if funct5 = 0 then .ok (.FaddD (rd inst) (rs1 inst) (rs2 inst))
  else if funct5 = 1 then .ok (.FsubD (rd inst) (rs1 inst) (rs2 inst))
  else if funct5 = 2 then .ok (.FmulD (rd inst) (rs1 inst) (rs2 inst))
  else if funct5 = 3 then .ok (.FdivD (rd inst) (rs1 inst) (rs2 inst))
  else if f3 = 0 ∧ funct5 = 4 then .ok (.FsgnjD (rd inst) (rs1 inst) (rs2 inst))
  else if f3 = 1 ∧ funct5 = 4 then .ok (.FsgnjnD (rd inst) (rs1 inst) (rs2 inst))
  else if f3 = 2 ∧ funct5 = 4 then .ok (.FsgnjxD (rd inst) (rs1 inst) (rs2 inst))
  else if f3 = 0 ∧ funct5 = 5 then .ok (.FminD (rd inst) (rs1 inst) (rs2 inst))
  else if f3 = 1 ∧ funct5 = 5 then .ok (.FmaxD (rd inst) (rs1 inst) (rs2 inst))
  else if funct5 = 8 then .ok (.FcvtDS (rd inst) (rs1 inst))
  else if f3 = 2 ∧ funct5 = 20 then .ok (.FeqD (rd inst) (rs1 inst) (rs2 inst))
  else if f3 = 1 ∧ funct5 = 20 then .ok (.FltD (rd inst) (rs1 inst) (rs2 inst))
  else if f3 = 0 ∧ funct5 = 20 then .ok (.FleD (rd inst) (rs1 inst) (rs2 inst))
  else if f3 = 1 ∧ funct5 = 28 then .ok (.FClassD (rd inst) (rs1 inst))
  else if funct5 = 24 then
    if rs2 inst = 0 then .ok (.FcvtWD (rd inst) (rs1 inst))
    else if rs2 inst = 1 then .ok (.FcvtWUD (rd inst) (rs1 inst))
    else .error (.unknownInstructionFormat "Unknown Fcvt W D instruction")
  else if funct5 = 11 then .ok (.FsqrtD (rd inst) (rs1 inst))
  else .error (.unknownInstructionFormat
    "Unknown Double Precision Floating Point instruction")

/-- Rust `decode_quad_precision`: a recognized but unsupported branch. -/
def decode_quad_precision (_inst _f3 _funct5 : Nat) :
    Except DecodeError InstructionDecoded :=
  .error (.unknownInstructionFormat
    "Quad Precision Floating Point instructions are not supported yet")

/-- Rust `decode_rtype` (arms in source order; catalog (funct3, funct7) pairs
inline). -/
def decode_rtype (inst : Nat) : Except DecodeError InstructionDecoded :=
  if opcode inst = ARITMETIC_REGISTER_MATCH then
    if funct3 inst = 0 ∧ funct7 inst = 0 then .ok (.Add (rd inst) (rs1 inst) (rs2 inst))
    else if funct3 inst = 0 ∧ funct7 inst = 32 then .ok (.Sub (rd inst) (rs1 inst) (rs2 inst))
    else if funct3 inst = 1 ∧ funct7 inst = 0 then .ok (.Sll (rd inst) (rs1 inst) (rs2 inst))
    else if funct3 inst = 2 ∧ funct7 inst = 0 then .ok (.Slt (rd inst) (rs1 inst) (rs2 inst))
    else if funct3 inst = 3 ∧ funct7 inst = 0 then .ok (.Sltu (rd inst) (rs1 inst) (rs2 inst))
    else if funct3 inst = 4 ∧ funct7 inst = 0 then .ok (.Xor (rd inst) (rs1 inst) (rs2 inst))
    else if funct3 inst = 5 ∧ funct7 inst = 0 then .ok (.Srl (rd inst) (rs1 inst) (rs2 inst))
    else if funct3 inst = 5 ∧ funct7 inst = 32 then .ok (.Sra (rd inst) (rs1 inst) (rs2 inst))
    else if funct3 inst = 6 ∧ funct7 inst = 0 then .ok (.Or (rd inst) (rs1 inst) (rs2 inst))
    else if funct3 inst = 7 ∧ funct7 inst = 0 then .ok (.And (rd inst) (rs1 inst) (rs2 inst))
    else if funct3 inst = 0 ∧ funct7 inst = 1 then .ok (.Mul (rd inst) (rs1 inst) (rs2 inst))
    else if funct3 inst = 1 ∧ funct7 inst = 1 then .ok (.Mulh (rd inst) (rs1 inst) (rs2 inst))
    else if funct3 inst = 3 ∧ funct7 inst = 1 then .ok (.Mulu (rd inst) (rs1 inst) (rs2 inst))
    else if funct3 inst = 2 ∧ funct7 inst = 1 then .ok (.Mulsu (rd inst) (rs1 inst) (rs2 inst))
    else if funct3 inst = 4 ∧ funct7 inst = 1 then .ok (.Div (rd inst) (rs1 inst) (rs2 inst))
    else if funct3 inst = 5 ∧ funct7 inst = 1 then .ok (.Divu (rd inst) (rs1 inst) (rs2 inst))
    else if funct3 inst = 6 ∧ funct7 inst = 1 then .ok (.Rem (rd inst) (rs1 inst) (rs2 inst))
    else if funct3 inst = 7 ∧ funct7 inst = 1 then .ok (.Remu (rd inst) (rs1 inst) (rs2 inst))
    else .error (.unknownInstructionFormat
      "Unknown Arithmetic Register instruction (R-type)")
  else if opcode inst = ATOMIC_MATCH then
    -- funct5 = get_bits(funct7, 5, 2); rl = funct7 bit 0; aq = funct7 bit 1;
    -- the only atomic arm present: `(amoswap_w::FUNCT3, amoswap_w::FUNCT5)`
    if funct3 inst = 2 ∧ get_bits (funct7 inst) 5 2 = 1 then
      .ok (.AmoswapW (rd inst) (rs1 inst) (rs2 inst)
        (is_set (funct7 inst) 0) (is_set (funct7 inst) 1))
    else .error (.unknownInstructionFormat "Unknown Atomic instruction")
  else if opcode inst = FLOATING_POINT_MATCH then
    -- fmt = the low 2 bits of funct7; funct5 = its top 5 bits
    if get_bits (funct7 inst) 2 0 = 0 then
      decode_single_precision inst (funct3 inst) (get_bits (funct7 inst) 5 2)
    else if get_bits (funct7 inst) 2 0 = 1 then
      decode_double_precision inst (funct3 inst) (get_bits (funct7 inst) 5 2)
    else if get_bits (funct7 inst) 2 0 = 3 then
      decode_quad_precision inst (funct3 inst) (get_bits (funct7 inst) 5 2)
    else .error (.unknownInstructionFormat "Unknown Floating Point instruction")
  else if opcode inst = FMADDD_MATCH then
    .ok (.FmaddD (rd inst) (rs1 inst) (rs2 inst) (get_bits (funct7 inst) 5 2))
  else if opcode inst = FMSUBD_MATCH then
    .ok (.FmsubD (rd inst) (rs1 inst) (rs2 inst) (get_bits (funct7 inst) 5 2))
  else if opcode inst = FNMADDD_MATCH then
    .ok (.FnmaddD (rd inst) (rs1 inst) (rs2 inst) (get_bits (funct7 inst) 5 2))
  else if opcode inst = FNMSUBD_MATCH then
    .ok (.FnmsubD (rd inst) (rs1 inst) (rs2 inst) (get_bits (funct7 inst) 5 2))
  else .error (.unknownInstructionFormat "Unknown R-Type instruction")

/-- Rust `decode_itype` (arms in source order). -/
def decode_itype (inst : Nat) : Except DecodeError InstructionDecoded :=
  if opcode inst = ARITMETIC_IMMEDIATE_MATCH then
    -- imm = get_bits(imm, 5, 0) removes bits [11:5];
    -- f5 = get_bits(imm, 6, 5) is the shift-type discriminant
    if funct3 inst = 0 then .ok (.Addi (rd inst) (rs1 inst) (itype_imm inst))
    else if funct3 inst = 2 then .ok (.Slti (rd inst) (rs1 inst) (itype_imm inst))
    else if funct3 inst = 3 then .ok (.Sltiu (rd inst) (rs1 inst) (itype_imm inst))
    else if funct3 inst = 4 then .ok (.Xori (rd inst) (rs1 inst) (itype_imm inst))
    else if funct3 inst = 6 then .ok (.Ori (rd inst) (rs1 inst) (itype_imm inst))
    else if funct3 inst = 7 then .ok (.Andi (rd inst) (rs1 inst) (itype_imm inst))
    else if funct3 inst = 1 ∧ get_bits (itype_imm inst) 6 5 = slli_IMM then .ok (.Slli (rd inst) (rs1 inst) (get_bits (itype_imm inst) 5 0))
    else if funct3 inst = 5 ∧ get_bits (itype_imm inst) 6 5 = srli_IMM then .ok (.Srli (rd inst) (rs1 inst) (get_bits (itype_imm inst) 5 0))
    else if funct3 inst = 5 ∧ get_bits (itype_imm inst) 6 5 = srai_IMM then .ok (.Srai (rd inst) (rs1 inst) (get_bits (itype_imm inst) 5 0))
    else .error (.unknownInstructionFormat
      "Unknown Arithmetic immediate I-Type instruction")
  else if opcode inst = LOAD_MATCH then
    if funct3 inst = 0 then .ok (.Lb (rd inst) (rs1 inst) (itype_imm inst))
    else if funct3 inst = 1 then .ok (.Lh (rd inst) (rs1 inst) (itype_imm inst))
    else if funct3 inst = 2 then .ok (.Lw (rd inst) (rs1 inst) (itype_imm inst))
    else if funct3 inst = 4 then .ok (.Lbu (rd inst) (rs1 inst) (itype_imm inst))
    else if funct3 inst = 5 then .ok (.Lhu (rd inst) (rs1 inst) (itype_imm inst))
    else .error (.unknownInstructionFormat "Unknown Load I-Type instruction")
  else if opcode inst = FLOAD_MATCH then
    if funct3 inst = 2 then .ok (.Flw (rd inst) (rs1 inst) (itype_imm inst))
    else if funct3 inst = 3 then .ok (.Fld (rd inst) (rs1 inst) (itype_imm inst))
    else .error (.unknownInstructionFormat
      "Unknown Float Load I-Type instruction")
  else if opcode inst = JALR_MATCH ∧ funct3 inst = 0 then
    .ok (.Jalr (rd inst) (rs1 inst) (itype_imm inst))
  else if opcode inst = FENCE_MATCH then
    if funct3 inst = 0 then
      .ok (.Fence (get_bits (itype_imm inst) 4 0) (get_bits (itype_imm inst) 4 4))
    else if funct3 inst = 1 then
      .ok (.FenceI (get_bits (itype_imm inst) 4 0) (get_bits (itype_imm inst) 4 4))
    else .error (.unknownInstructionFormat "Unknown Fence I-Type instruction")
  else if opcode inst = CSR_MATCH then
    if funct3 inst = 1 then .ok (.CsrRw (rd inst) (rs1 inst) (itype_uimm inst))
    else if funct3 inst = 2 then .ok (.CsrRs (rd inst) (rs1 inst) (itype_uimm inst))
    else if funct3 inst = 3 then .ok (.CsrRc (rd inst) (rs1 inst) (itype_uimm inst))
    else if funct3 inst = 5 then .ok (.CsrRwi (rd inst) (rs1 inst) (itype_uimm inst))
    else if funct3 inst = 6 then .ok (.CsrRsi (rd inst) (rs1 inst) (itype_uimm inst))
    else if funct3 inst = 7 then .ok (.CsrRci (rd inst) (rs1 inst) (itype_uimm inst))
    -- e-insts: (funct3, the full immediate) exact matches, in source order
    else if funct3 inst = 0 ∧ itype_imm inst = sfencevma_IMM then .ok .SFenceVma
    else if funct3 inst = 0 ∧ itype_imm inst = ebreak_IMM then .ok .EBreak
    else if funct3 inst = 0 ∧ itype_imm inst = ecall_IMM then .ok .ECall
    else if funct3 inst = 0 ∧ itype_imm inst = mret_IMM then .ok .MRet
    else if funct3 inst = 0 ∧ itype_imm inst = sret_IMM then .ok .SRet
    else .error (.unknownInstructionFormat "Unknown Csr I-Type instruction")
  else .error (.unknownInstructionFormat "Unknown I-Type instruction")

/-- Rust `decode_stype`. -/
def decode_stype (inst : Nat) : Except DecodeError InstructionDecoded :=
  if opcode inst = STORE_MATCH then
    if funct3 inst = 0 then .ok (.Sb (rs1 inst) (rs2 inst) (stype_imm inst))
    else if funct3 inst = 1 then .ok (.Sh (rs1 inst) (rs2 inst) (stype_imm inst))
    else if funct3 inst = 2 then .ok (.Sw (rs1 inst) (rs2 inst) (stype_imm inst))
    else .error (.unknownInstructionFormat "Unknown S-Type instruction")
  else if opcode inst = FSTORE_MATCH then
    if funct3 inst = 2 then .ok (.Fsw (rs1 inst) (rs2 inst) (stype_imm inst))
    else if funct3 inst = 3 then .ok (.Fsd (rs1 inst) (rs2 inst) (stype_imm inst))
    else .error (.unknownInstructionFormat "Unknown S-Type instruction")
  else .error (.unknownInstructionFormat "Unknown S-Type instruction")

/-- Rust `decode_utype`. -/
def decode_utype (inst : Nat) : Except DecodeError InstructionDecoded :=
  if opcode inst = LUI_MATCH then .ok (.Lui (rd inst) (utype_imm inst))
  else if opcode inst = AUIPC_MATCH then .ok (.AuiPc (rd inst) (utype_imm inst))
  else .error (.unknownInstructionFormat "Unknown U-Type instruction")

/-- Rust `decode_btype`: matches on funct3 only. -/
def decode_btype (inst : Nat) : Except DecodeError InstructionDecoded :=
  if funct3 inst = 0 then .ok (.Beq (rs1 inst) (rs2 inst) (btype_imm inst))
  else if funct3 inst = 1 then .ok (.Bne (rs1 inst) (rs2 inst) (btype_imm inst))
  else if funct3 inst = 4 then .ok (.Blt (rs1 inst) (rs2 inst) (btype_imm inst))
  else if funct3 inst = 5 then .ok (.Bge (rs1 inst) (rs2 inst) (btype_imm inst))
  else if funct3 inst = 6 then .ok (.Bltu (rs1 inst) (rs2 inst) (btype_imm inst))
  else if funct3 inst = 7 then .ok (.Bgeu (rs1 inst) (rs2 inst) (btype_imm inst))
  else .error (.unknownInstructionFormat "Unknown B-Type instruction")

/-- Rust `decode_jtype`. -/
def decode_jtype (inst : Nat) : Except DecodeError InstructionDecoded :=
  if opcode inst = JAL_MATCH then .ok (.Jal (rd inst) (jtype_imm inst))
  else .error (.unknownInstructionFormat "Unknown J-Type instruction")

/-- Rust `try_decode_compressed`: compressed decoding is unimplemented. -/
def try_decode_compressed (_inst : Nat) : Except DecodeError InstructionDecoded :=
  .error (.unknownInstructionFormat
    "Compressed instructions are not supported yet")

/-- The opcode → format classification step of `try_decode` (the `let fmt =
match inst & OPCODE_MASK` block, with `?` propagating the error). -/
def classify_format (inst : Nat) : Except DecodeError InstructionFormat :=
  if inst &&& OPCODE_MASK = FNMSUBD_MATCH ∨ inst &&& OPCODE_MASK = FNMADDD_MATCH ∨
      inst &&& OPCODE_MASK = FMSUBD_MATCH ∨ inst &&& OPCODE_MASK = FMADDD_MATCH ∨
      inst &&& OPCODE_MASK = FLOATING_POINT_MATCH ∨ inst &&& OPCODE_MASK = ATOMIC_MATCH ∨
      inst &&& OPCODE_MASK = ARITMETIC_REGISTER_MATCH then .ok .RType
  else if inst &&& OPCODE_MASK = FSTORE_MATCH ∨ inst &&& OPCODE_MASK = STORE_MATCH then
    .ok .SType
  else if inst &&& OPCODE_MASK = BRANCH_MATCH then .ok .BType
  else if inst &&& OPCODE_MASK = JAL_MATCH then .ok .JType
  else if inst &&& OPCODE_MASK = FLOAD_MATCH ∨ inst &&& OPCODE_MASK = ARITMETIC_IMMEDIATE_MATCH ∨
      inst &&& OPCODE_MASK = FENCE_MATCH ∨ inst &&& OPCODE_MASK = LOAD_MATCH ∨
      inst &&& OPCODE_MASK = CSR_MATCH ∨ inst &&& OPCODE_MASK = JALR_MATCH then .ok .IType
  else if inst &&& OPCODE_MASK = LUI_MATCH ∨ inst &&& OPCODE_MASK = AUIPC_MATCH then
    .ok .UType
  else .error (.unknownInstructionFormat ("Failed to decode inst " ++ toString inst))

/-- Rust `try_decode`: the compressed short-circuit, then the opcode → format
classification, then dispatch to the per-format decoder. -/
def try_decode (inst : Nat) : Except DecodeError InstructionDecoded :=
  if inst &&& COMPRESSED_MASK = 0 ∨ inst &&& COMPRESSED_MASK = 1 ∨
      inst &&& COMPRESSED_MASK = 2 then
    try_decode_compressed inst
  else
    match classify_format inst with
    | .error e => .error e
    | .ok .RType => decode_rtype inst
    | .ok .IType => decode_itype inst
    | .ok .SType => decode_stype inst
    | .ok .UType => decode_utype inst
    | .ok .BType => decode_btype inst
    | .ok .JType => decode_jtype inst

/-! ## Disassembly renderer (`impl Display for InstructionDecoded`)

Indexing `REG_NAMES[r as usize]` panics when `r ≥ 32`; the embedding
returns `Option String`, with `none` modelling the panic.  The CSR name
table `CSRS` is produced by build-time code generation outside `src/`,
so the renderer is parametrized by the `lookup(address) -> Option<&str>`
capability the spec requires of it. -/

def REG_NAMES : List String :=
  ["zero", "ra", "sp", "gp", "tp", "t0", "t1", "t2", "s0", "s1", "a0", "a1",
   "a2", "a3", "a4", "a5", "a6", "a7", "s2", "s3", "s4", "s5", "s6", "s7",
   "s8", "s9", "s10", "s11", "t3", "t4", "t5", "t6"]

/-- Rust `REG_NAMES[r as usize]`, with `none` for the out-of-bounds panic. -/
def regName (n : Nat) : Option String := REG_NAMES.get? n

/-- The register name at an in-range index, as a total function. -/
def regNameT (n : Nat) : String := (REG_NAMES.get? n).getD ""

/-- Rust `*imm as i32` followed by `Display`: the two's-complement reading of
the low 32 bits, printed in decimal. -/
def i32str (n : Nat) : String :=
  toString (if n < 2 ^ 31 then (n : Int) else (n : Int) - 2 ^ 32)

/-- Rust `*b as i32` on a `bool`, displayed. -/
def boolI32 (b : Bool) : String := if b then "1" else "0"

def hexDigit (n : Nat) : Char := "0123456789ABCDEF".toList.getD n '0'

def hexCharsAux : Nat → Nat → List Char
  | 0, _ => []
  | fuel + 1, n => if n = 0 then [] else hexCharsAux fuel (n / 16) ++ [hexDigit (n % 16)]

/-- Rust `format!` with the alternate upper-hex spec: `0x`-prefixed upper-case hexadecimal. -/
def hexUpper (n : Nat) : String :=
  if n = 0 then "0x0" else "0x" ++ String.mk (hexCharsAux 16 n)

/-- Rust `CSRS.get(imm).map(|v| *v).unwrap_or(format!(..).as_str())`:
the CSR-name lookup with a numeric (decimal) fallback. -/
def csrDisplay (table : Nat → Option String) (imm : Nat) : String :=
  (table imm).getD (toString imm)

/-- The register-register write pattern `"name r1, r2, r3"`. -/
def fmtR (name : String) (a b c : Nat) : Option String :=
  (regName a).bind fun x =>
  (regName b).bind fun y =>
  (regName c).bind fun z =>
  some (name ++ " " ++ x ++ ", " ++ y ++ ", " ++ z)

/-- The four-register write pattern `"name r1, r2, r3, r4"`. -/
def fmtR4 (name : String) (a b c d : Nat) : Option String :=
  (regName a).bind fun x =>
  (regName b).bind fun y =>
  (regName c).bind fun z =>
  (regName d).bind fun u =>
  some (name ++ " " ++ x ++ ", " ++ y ++ ", " ++ z ++ ", " ++ u)

/-- The memory-operand write pattern `"name r1, imm(r2)"` (loads print
`rd, imm(rs1)`; stores print `rs2, imm(rs1)`). -/
def fmtMem (name : String) (a imm b : Nat) : Option String :=
  (regName a).bind fun x =>
  (regName b).bind fun y =>
  some (name ++ " " ++ x ++ ", " ++ i32str imm ++ "(" ++ y ++ ")")

/-- The register-register-immediate write pattern `"name r1, r2, imm"`. -/
def fmtRRI (name : String) (a b imm : Nat) : Option String :=
  (regName a).bind fun x =>
  (regName b).bind fun y =>
  some (name ++ " " ++ x ++ ", " ++ y ++ ", " ++ i32str imm)

/-- The two-register write pattern `"name r1, r2"`. -/
def fmtRR (name : String) (a b : Nat) : Option String :=
  (regName a).bind fun x =>
  (regName b).bind fun y =>
  some (name ++ " " ++ x ++ ", " ++ y)

/-- The atomic write pattern `"name rd, rs1, rs2, rl, aq"` with `rl`/`aq`
printed as `0`/`1`. -/
def fmtAmo (name : String) (a b c : Nat) (rl aq : Bool) : Option String :=
  (regName a).bind fun x =>
  (regName b).bind fun y =>
  (regName c).bind fun z =>
  some (name ++ " " ++ x ++ ", " ++ y ++ ", " ++ z ++ ", " ++
    boolI32 rl ++ ", " ++ boolI32 aq)

/-- The four-way `Jalr` write pattern: `jalr rd` when the immediate is 0
and rd = rs1; `jalr rd, rs1` when only the immediate is 0;
`jalr imm(rd)` when only rd = rs1; `jalr rd, imm(rs1)` otherwise. -/
def fmtJalr (r s imm : Nat) : Option String :=
  if imm = 0 ∧ r = s then
    (regName r).bind fun x => some ("jalr " ++ x)
  else if imm = 0 then
    (regName r).bind fun x => (regName s).bind fun y =>
    some ("jalr " ++ x ++ ", " ++ y)
  else if r = s then
    (regName r).bind fun x =>
    some ("jalr " ++ i32str imm ++ "(" ++ x ++ ")")
  else
    (regName r).bind fun x => (regName s).bind fun y =>
    some ("jalr " ++ x ++ ", " ++ i32str imm ++ "(" ++ y ++ ")")

/-- The `print_csr!` macro: the short mnemonic without the destination when
`rd == 0 || rd == rs1`, the expanded mnemonic with all three operands
otherwise. -/
def print_csr (table : Nat → Option String) (name nameExp : String)
    (r s imm : Nat) : Option String :=
  if r = 0 ∨ r = s then
    (regName s).bind fun y =>
    some (name ++ " " ++ csrDisplay table imm ++ ", " ++ y)
  else
    (regName r).bind fun x =>
    (regName s).bind fun y =>
    some (nameExp ++ " " ++ x ++ ", " ++ csrDisplay table imm ++ ", " ++ y)

/-- The `Display` implementation, arm for arm. -/
def renderInstruction (table : Nat → Option String) :
    InstructionDecoded → Option String
  | .Lb r s imm => fmtMem "lb" r imm s
  | .Lh r s imm => fmtMem "lh" r imm s
  | .Lw r s imm => fmtMem "lw" r imm s
  | .Lbu r s imm => fmtMem "lbu" r imm s
  | .Lhu r s imm => fmtMem "lhu" r imm s
  | .Lwu r s imm => fmtMem "lwu" r imm s
  | .Addi r s imm => fmtRRI "addi" r s imm
  | .Slli r s imm => fmtRRI "slli" r s imm
  | .Slti r s imm => fmtRRI "slti" r s imm
  | .Sltiu r s imm => fmtRRI "sltiu" r s imm
  | .Xori r s imm => fmtRRI "xori" r s imm
  | .Srli r s imm => fmtRRI "srli" r s imm
  | .Srai r s imm => fmtRRI "srai" r s imm
  | .Ori r s imm => fmtRRI "ori" r s imm
  | .Andi r s imm => fmtRRI "andi" r s imm
  | .AuiPc r imm => (regName r).bind fun x =>
      some ("auipc " ++ x ++ ", " ++ i32str imm)
  | .Sb s t imm => fmtMem "sb" t imm s
  | .Sh s t imm => fmtMem "sh" t imm s
  | .Sw s t imm => fmtMem "sw" t imm s
  | .Add r s t => fmtR "add" r s t
  | .Sub r s t => fmtR "sub" r s t
  | .Sll r s t => fmtR "sll" r s t
  | .Slt r s t => fmtR "slt" r s t
  | .Sltu r s t => fmtR "sltu" r s t
  | .Xor r s t => fmtR "xor" r s t
  | .Srl r s t => fmtR "srl" r s t
  | .Sra r s t => fmtR "sra" r s t
  | .Or r s t => fmtR "or" r s t
  | .And r s t => fmtR "and" r s t
  | .Lui r imm => (regName r).bind fun x =>
      some ("lui " ++ x ++ ", " ++ hexUpper imm)
  | .Beq s t imm => fmtRRI "beq" s t imm
  | .Bne s t imm => fmtRRI "bne" s t imm
  | .Blt s t imm => fmtRRI "blt" s t imm
  | .Bge s t imm => fmtRRI "bge" s t imm
  | .Bltu s t imm => fmtRRI "bltu" s t imm
  | .Bgeu s t imm => fmtRRI "bgeu" s t imm
  | .Jalr r s imm => fmtJalr r s imm
  | .Jal r imm => (regName r).bind fun x =>
      some ("jal " ++ i32str imm ++ "(" ++ x ++ ")")
  | .ECall => some "ecall"
  | .EBreak => some "ebreak"
  | .SRet => some "sret"
  | .MRet => some "mret"
  | .SFenceVma => some "sfence.vma"
  | .CsrRw r s imm => print_csr table "csrw" "csrrw" r s imm
  | .CsrRs r s imm => print_csr table "csrs" "csrrs" r s imm
  | .CsrRc r s imm => print_csr table "csrc" "csrrc" r s imm
  | .CsrRwi r s imm => print_csr table "csrwi" "csrrwi" r s imm
  | .CsrRsi r s imm => print_csr table "csrsi" "csrrsi" r s imm
  | .CsrRci r s imm => print_csr table "csrci" "csrrci" r s imm
  | .Fence pred succ => some ("fence " ++ i32str pred ++ ", " ++ i32str succ)
  | .FenceI pred succ => some ("fence.i " ++ i32str pred ++ ", " ++ i32str succ)
  | .Flw r s imm => fmtMem "flw" r imm s
  | .Fsw s t imm => fmtMem "fsw" t imm s
  | .Fld r s imm => fmtMem "fld" r imm s
  | .Fsd s t imm => fmtMem "fsd" t imm s
  | .FmaddS r s t u => fmtR4 "fmadd.s" r s t u
  | .FmsubS r s t u => fmtR4 "fmsub.s" r s t u
  | .FnmaddS r s t u => fmtR4 "fnmadd.s" r s t u
  | .FnmsubS r s t u => fmtR4 "fnmsub.s" r s t u
  | .FaddS r s t => fmtR "fadd.s" r s t
  | .FsubS r s t => fmtR "fsub.s" r s t
  | .FmulS r s t => fmtR "fmul.s" r s t
  | .FdivS r s t => fmtR "fdiv.s" r s t
  | .FsqrtS r s => fmtRR "fsqrt.s" r s
  | .FsgnjS r s t => fmtR "fsgnj.s" r s t
  | .FsgnjnS r s t => fmtR "fsgnjn.s" r s t
  | .FsgnjxS r s t => fmtR "fsgnjx.s" r s t
  | .FminS r s t => fmtR "fmin.s" r s t
  | .FmaxS r s t => fmtR "fmax.s" r s t
  | .FcvtSW r s => fmtRR "fcvt.s.w" r s
  | .FcvtSWU r s => fmtRR "fcvt.s.wu" r s
  | .FcvtWS r s => fmtRR "fcvt.w.s" r s
  | .FcvtWUS r s => fmtRR "fcvt.wu.s" r s
  | .FmvXW r s => fmtRR "fmv.x.w" r s
  | .FmvWX r s => fmtRR "fmv.w.x" r s
  | .FeqS r s t => fmtR "feq.s" r s t
  | .FltS r s t => fmtR "flt.s" r s t
  | .FleS r s t => fmtR "fle.s" r s t
  | .FClassS r s => fmtRR "fclass.s" r s
  | .FaddD r s t => fmtR "fadd.d" r s t
  | .FsubD r s t => fmtR "fsub.d" r s t
  | .FmulD r s t => fmtR "fmul.d" r s t
  | .FdivD r s t => fmtR "fdiv.d" r s t
  | .FsqrtD r s => fmtRR "fsqrt.d" r s
  | .FsgnjD r s t => fmtR "fsgnj.d" r s t
  | .FsgnjnD r s t => fmtR "fsgnjn.d" r s t
  | .FsgnjxD r s t => fmtR "fsgnjx.d" r s t
  | .FminD r s t => fmtR "fmin.d" r s t
  | .FmaxD r s t => fmtR "fmax.d" r s t
  | .FeqD r s t => fmtR "feq.d" r s t
  | .FltD r s t => fmtR "flt.d" r s t
  | .FleD r s t => fmtR "fle.d" r s t
  | .FClassD r s => fmtRR "fclass.d" r s
  | .FcvtWD r s => fmtRR "fcvt.w.d" r s
  | .FcvtWUD r s => fmtRR "fcvt.wu.d" r s
  | .FcvtDW r s => fmtRR "fcvt.d.w" r s
  | .FcvtDWU r s => fmtRR "fcvt.d.wu" r s
  | .FcvtDS r s => fmtRR "fcvt.d.s" r s
  | .FcvtSD r s => fmtRR "fcvt.s.d" r s
  | .Mul r s t => fmtR "mul" r s t
  | .Mulh r s t => fmtR "mulh" r s t
  | .Mulsu r s t => fmtR "mulsu" r s t
  | .Mulu r s t => fmtR "mulu" r s t
  | .Div r s t => fmtR "div" r s t
  | .Divu r s t => fmtR "divu" r s t
  | .Rem r s t => fmtR "rem" r s t
  | .Remu r s t => fmtR "remu" r s t
  | .LrW r s t rl aq => fmtAmo "lr.w" r s t rl aq
  | .ScW r s t rl aq => fmtAmo "sc.w" r s t rl aq
  | .AmoswapW r s t rl aq => fmtAmo "amoswap.w" r s t rl aq
  | .AmoaddW r s t rl aq => fmtAmo "amoadd.w" r s t rl aq
  | .AmoandW r s t rl aq => fmtAmo "amoand.w" r s t rl aq
  | .AmoorW r s t rl aq => fmtAmo "amoor.w" r s t rl aq
  | .AmoxorW r s t rl aq => fmtAmo "amoxor.w" r s t rl aq
  | .AmomaxW r s t rl aq => fmtAmo "amomax.w" r s t rl aq
  | .AmominW r s t rl aq => fmtAmo "amomin.w" r s t rl aq
  | .CNop => some "c.nop"
  | .CAddi4Spn r nzuimm => (regName r).bind fun x =>
      some ("c.addi4spn " ++ x ++ ", " ++ i32str nzuimm)
  | .CSlli r s shamt => fmtRRI "c.slli" r s shamt
  | .FmaddD r s t u => fmtR4 "fmadd.d" r s t u
  | .FmsubD r s t u => fmtR4 "fmsub.d" r s t u
  | .FnmsubD r s t u => fmtR4 "fnmsub.d" r s t u
  | .FnmaddD r s t u => fmtR4 "fnmadd.d" r s t u

/-- The B-type immediate reassembly the spec describes, written from the
spec's words for comparison with `btype_imm`: imm[12]<<12, imm[11]<<11,
imm[10:5]<<5, imm[4:1]<<1, bit 0 forced to 0, sign-extended from bit 12
into the u32 word pattern. -/
def btype_spec_imm (w : Nat) : Nat :=
  let v := (get_bit w 31 <<< 12) ||| (get_bit w 7 <<< 11) |||
    (get_bits w 6 25 <<< 5) ||| (get_bits w 4 8 <<< 1)
  if v < 2 ^ 12 then v else v + 0xFFFFE000

/-! ## The field-range predicate of the spec -/

/-- Every register-index field (rd, rs1, rs2, rs3) lies in [0, 31], and the
CSR-address immediate of a CSR variant lies in [0, 4095]. -/
def fieldsInRange : InstructionDecoded → Prop
  | .Lb r s _ | .Lh r s _ | .Lw r s _ | .Lbu r s _ | .Lhu r s _ | .Lwu r s _
  | .Addi r s _ | .Slli r s _ | .Slti r s _ | .Sltiu r s _ | .Xori r s _
  | .Srli r s _ | .Srai r s _ | .Ori r s _ | .Andi r s _
  | .Sb r s _ | .Sh r s _ | .Sw r s _
  | .Beq r s _ | .Bne r s _ | .Blt r s _ | .Bge r s _ | .Bltu r s _
  | .Bgeu r s _ | .Jalr r s _ | .Flw r s _ | .Fsw r s _ | .Fld r s _
  | .Fsd r s _ | .CSlli r s _ => r < 32 ∧ s < 32
  | .CsrRw r s i | .CsrRs r s i | .CsrRc r s i | .CsrRwi r s i
  | .CsrRsi r s i | .CsrRci r s i => r < 32 ∧ s < 32 ∧ i < 4096
  | .AuiPc r _ | .Lui r _ | .Jal r _ | .CAddi4Spn r _ => r < 32
  | .Add r s t | .Sub r s t | .Sll r s t | .Slt r s t | .Sltu r s t
  | .Xor r s t | .Srl r s t | .Sra r s t | .Or r s t | .And r s t
  | .FaddS r s t | .FsubS r s t | .FmulS r s t | .FdivS r s t
  | .FsgnjS r s t | .FsgnjnS r s t | .FsgnjxS r s t | .FminS r s t
  | .FmaxS r s t | .FeqS r s t | .FltS r s t | .FleS r s t
  | .FaddD r s t | .FsubD r s t | .FmulD r s t | .FdivD r s t
  | .FsgnjD r s t | .FsgnjnD r s t | .FsgnjxD r s t | .FminD r s t
  | .FmaxD r s t | .FeqD r s t | .FltD r s t | .FleD r s t
  | .Mul r s t | .Mulh r s t | .Mulsu r s t | .Mulu r s t | .Div r s t
  | .Divu r s t | .Rem r s t | .Remu r s t => r < 32 ∧ s < 32 ∧ t < 32
  | .FmaddS r s t u | .FmsubS r s t u | .FnmaddS r s t u | .FnmsubS r s t u
  | .FmaddD r s t u | .FmsubD r s t u | .FnmaddD r s t u
  | .FnmsubD r s t u => r < 32 ∧ s < 32 ∧ t < 32 ∧ u < 32
  | .FsqrtS r s | .FcvtSW r s | .FcvtSWU r s | .FcvtWS r s | .FcvtWUS r s
  | .FcvtWD r s | .FcvtWUD r s | .FcvtDW r s | .FcvtDWU r s | .FmvXW r s
  | .FmvWX r s | .FClassS r s | .FsqrtD r s | .FClassD r s
  | .FcvtSD r s | .FcvtDS r s => r < 32 ∧ s < 32
  | .LrW r s t _ _ | .ScW r s t _ _ | .AmoswapW r s t _ _
  | .AmoaddW r s t _ _ | .AmoandW r s t _ _ | .AmoorW r s t _ _
  | .AmoxorW r s t _ _ | .AmomaxW r s t _ _
  | .AmominW r s t _ _ => r < 32 ∧ s < 32 ∧ t < 32
  | .ECall | .EBreak | .SRet | .MRet | .SFenceVma | .CNop => True
  | .Fence _ _ | .FenceI _ _ => True

/-! ## Support lemmas -/

theorem create_mask_eq (n : Nat) : create_mask n = 2 ^ n - 1 := by
  unfold create_mask; rw [Nat.one_shiftLeft]

theorem get_bits_eq_mod (v n off : Nat) : get_bits v n off = (v >>> off) % 2 ^ n := by
  unfold get_bits; rw [create_mask_eq, Nat.and_pow_two_sub_one_eq_mod]

theorem get_bits_lt (v n off : Nat) : get_bits v n off < 2 ^ n := by
  rw [get_bits_eq_mod]; exact Nat.mod_lt _ (Nat.two_pow_pos n)

theorem get_bits5_lt (v off : Nat) : get_bits v 5 off < 32 := get_bits_lt v 5 off

theorem get_bits12_lt (v off : Nat) : get_bits v 12 off < 4096 := get_bits_lt v 12 off

theorem land3_eq_mod (w : Nat) : w &&& 3 = w % 4 := by
  have h := Nat.and_pow_two_sub_one_eq_mod w 2
  norm_num at h; exact h

theorem opcode_eq_mod (w : Nat) : opcode w = w % 128 := by
  unfold opcode
  rw [get_bits_eq_mod]
  norm_num [Nat.shiftRight_zero]

theorem low2_of_opcode {w c : Nat} (h : opcode w = c) : w &&& 3 = c % 4 := by
  rw [land3_eq_mod, ← Nat.mod_mod_of_dvd w (by norm_num : (4 : Nat) ∣ 128),
    ← opcode_eq_mod w, h]

theorem land127_eq_opcode (w : Nat) : w &&& 127 = opcode w := by
  rw [opcode_eq_mod]
  have h := Nat.and_pow_two_sub_one_eq_mod w 7
  norm_num at h; exact h

/-! ## Claim C1 -/

/-- C1: for every 32-bit instruction word (all 2^32 values, including
0x00000000 and 0xFFFFFFFF), `try_decode` returns either `Ok` with a
`DecodedInstruction` or a well-defined `Err`; no input causes a panic
(the embedding of `try_decode` is a total function into `Except`). -/
theorem try_decode_total (w : Nat) (_h : w < 2 ^ 32) :
    (∃ i, try_decode w = .ok i) ∨ (∃ e, try_decode w = .error e) := by
  cases h' : try_decode w with
  | ok i => exact .inl ⟨i, rfl⟩
  | error e => exact .inr ⟨e, rfl⟩

theorem try_decode_total_witness :
    ((0xFFFFFFFF : Nat) < 2 ^ 32 ∧
      ((∃ i, try_decode 0xFFFFFFFF = .ok i) ∨
        (∃ e, try_decode 0xFFFFFFFF = .error e))) :=
  ⟨by norm_num, try_decode_total 0xFFFFFFFF (by norm_num)⟩

/-! ## Claim C2 -/

/-- C2: every word whose low 2 bits are 0b00, 0b01 or 0b10 is handed to
`try_decode_compressed` (none of the six standard per-format decoders can
contribute to the result) and yields the unsupported-compressed error,
regardless of the remaining 30 bits. -/
theorem compressed_short_circuit (w : Nat)
    (h : w &&& COMPRESSED_MASK = 0 ∨ w &&& COMPRESSED_MASK = 1 ∨
      w &&& COMPRESSED_MASK = 2) :
    try_decode w = try_decode_compressed w ∧
      try_decode w = .error (.unknownInstructionFormat
        "Compressed instructions are not supported yet") := by
  unfold try_decode
  rw [if_pos h]
  exact ⟨rfl, rfl⟩

theorem compressed_short_circuit_witness :
    ((2 : Nat) &&& COMPRESSED_MASK = 0 ∨ (2 : Nat) &&& COMPRESSED_MASK = 1 ∨
      (2 : Nat) &&& COMPRESSED_MASK = 2) ∧
      try_decode 2 = .error (.unknownInstructionFormat
        "Compressed instructions are not supported yet") :=
  ⟨by decide, (compressed_short_circuit 2 (by decide)).2⟩

/-! ## Claim C3 -/

/-- C3 (code bug): decoding `0xfe078ce3` (`beq x15, x0, -8`) yields a `Beq`
with rs1 = 15 and rs2 = 0, but with imm = 0xFFFFFFF9 (-7 read as signed,
an odd value), not the -8 = 0xFFFFFFF8 that the spec's B-type reassembly
rule — stated alongside as `btype_spec_imm` — produces: `BType::imm`
computes `imm1 | (imm2 << 5)` as in the S-type layout instead of
interleaving the B-format immediate ranges its own comment describes. -/
theorem btype_imm_bug :
    try_decode 0xfe078ce3 = .ok (.Beq 15 0 0xFFFFFFF9) ∧
      btype_spec_imm 0xfe078ce3 = 0xFFFFFFF8 :=
  ⟨rfl, rfl⟩

/-! ## Claim C4 -/

theorem COMPRESSED_MASK_eq : COMPRESSED_MASK = 3 := rfl

theorem OPCODE_MASK_eq : OPCODE_MASK = 127 := rfl

/-- C4 (counterexample): the word 0x1000202F carries the atomic opcode 47,
funct3 = 2 and funct5 = 2 — the LR.W encoding — yet `try_decode` rejects
it instead of producing the LR.W variant the claim promises. -/
theorem atomic_lrw_rejected :
    opcode 0x1000202F = 47 ∧ funct3 0x1000202F = 2 ∧
      get_bits (funct7 0x1000202F) 5 2 = 2 ∧
      try_decode 0x1000202F =
        .error (.unknownInstructionFormat "Unknown Atomic instruction") :=
  ⟨rfl, rfl, rfl, rfl⟩

/-- C4 (amended): for every word with the atomic opcode 47 and funct3 = 2,
`decode_rtype` produces only the AMOSWAP.W variant — selected when funct5
(the top 5 bits of funct7) equals 1 — with the rl and aq booleans taken
from the low 2 bits of funct7; every other funct5 value yields an error,
so LR.W, SC.W, AMOADD.W, AMOAND.W, AMOOR.W, AMOXOR.W, AMOMAX.W and
AMOMIN.W are not producible. -/
theorem atomic_amoswap_only (w : Nat) (hop : opcode w = 47)
    (hf3 : funct3 w = 2) :
    (get_bits (funct7 w) 5 2 = 1 →
      try_decode w = .ok (.AmoswapW (rd w) (rs1 w) (rs2 w)
        (is_set (funct7 w) 0) (is_set (funct7 w) 1))) ∧
    (get_bits (funct7 w) 5 2 ≠ 1 → ∃ e, try_decode w = .error e) := by
  have hlow : w &&& 3 = 3 := by
    have h := low2_of_opcode hop; norm_num at h; exact h
  have hop' : w &&& 127 = 47 := by rw [land127_eq_opcode, hop]
  have hfmt : classify_format w = .ok .RType := by
    unfold classify_format
    norm_num [OPCODE_MASK_eq, hop', FNMSUBD_MATCH, FNMADDD_MATCH,
      FMSUBD_MATCH, FMADDD_MATCH, FLOATING_POINT_MATCH, ATOMIC_MATCH,
      ARITMETIC_REGISTER_MATCH]
  have hdec : try_decode w = decode_rtype w := by
    unfold try_decode
    rw [if_neg (by simp [COMPRESSED_MASK_eq, hlow]), hfmt]
  have hatomic : decode_rtype w =
      (if funct3 w = 2 ∧ get_bits (funct7 w) 5 2 = 1 then
        .ok (.AmoswapW (rd w) (rs1 w) (rs2 w)
          (is_set (funct7 w) 0) (is_set (funct7 w) 1))
      else .error (.unknownInstructionFormat "Unknown Atomic instruction")) := by
    unfold decode_rtype
    norm_num [hop, ARITMETIC_REGISTER_MATCH, ATOMIC_MATCH]
  constructor
  · intro h5
    rw [hdec, hatomic, if_pos ⟨hf3, h5⟩]
  · intro h5
    exact ⟨_, by rw [hdec, hatomic, if_neg (by simp [h5])]⟩

theorem atomic_amoswap_only_witness :
    opcode 0xCF4A7AF = 47 ∧ funct3 0xCF4A7AF = 2 ∧
      try_decode 0xCF4A7AF = .ok (.AmoswapW 15 9 15 false true) :=
  ⟨rfl, rfl, (atomic_amoswap_only 0xCF4A7AF rfl rfl).1 rfl⟩

/-! ## Claim C5 -/

/-- C5 (code bug): the positive half of the claim holds — `0x4010d093`
decodes to `Srai` with rd = 1, rs1 = 1, imm = 1 (the shift amount = the
immediate's low 5 bits) — but the discriminant is not the top 7 bits of
the 12-bit immediate: the word `0xC0105013` (funct3 = 5, immediate 0xC01,
top 7 bits 0b1100000, matching neither the SRLI nor the SRAI constant)
also decodes to `Srai`, because `decode_itype` compares only bits [10:5]
(`get_bits(imm, 6, 5)`) although its own comment says bits [11:5]. -/
theorem srai_discriminant_bug :
    try_decode 0x4010d093 = .ok (.Srai 1 1 1) ∧
      try_decode 0xC0105013 = .ok (.Srai 0 0 1) ∧
      itype_uimm 0xC0105013 = 0xC01 ∧
      get_bits 0xC01 7 5 ≠ srai_IMM ∧ get_bits 0xC01 7 5 ≠ srli_IMM :=
  ⟨rfl, rfl, rfl, by decide, by decide⟩

/-! ## Claim C6 -/

/-- C6: for every word with the CSR/system opcode 115 and funct3 = 0, a
full 12-bit immediate exactly equal to 0 decodes to ECall, 1 to EBreak,
0x102 to SRet, 0x302 to MRet and 0x120 to SFenceVma; these are mutually
exclusive exact matches on the whole 12-bit immediate, and any other
immediate with funct3 = 0 fails. -/
theorem csr_system_exact (w : Nat) (hop : opcode w = 115)
    (hf3 : funct3 w = 0) :
    (itype_uimm w = 0 → try_decode w = .ok .ECall) ∧
    (itype_uimm w = 1 → try_decode w = .ok .EBreak) ∧
    (itype_uimm w = 0x102 → try_decode w = .ok .SRet) ∧
    (itype_uimm w = 0x302 → try_decode w = .ok .MRet) ∧
    (itype_uimm w = 0x120 → try_decode w = .ok .SFenceVma) ∧
    (itype_uimm w ≠ 0 → itype_uimm w ≠ 1 → itype_uimm w ≠ 0x102 →
      itype_uimm w ≠ 0x302 → itype_uimm w ≠ 0x120 →
      ∃ e, try_decode w = .error e) := by
  have hlow : w &&& 3 = 3 := by
    have h := low2_of_opcode hop; norm_num at h; exact h
  have hop' : w &&& 127 = 115 := by rw [land127_eq_opcode, hop]
  have hfmt : classify_format w = .ok .IType := by
    unfold classify_format
    norm_num [OPCODE_MASK_eq, hop', FNMSUBD_MATCH, FNMADDD_MATCH,
      FMSUBD_MATCH, FMADDD_MATCH, FLOATING_POINT_MATCH, ATOMIC_MATCH,
      ARITMETIC_REGISTER_MATCH, FSTORE_MATCH, STORE_MATCH, BRANCH_MATCH,
      JAL_MATCH, FLOAD_MATCH, ARITMETIC_IMMEDIATE_MATCH, FENCE_MATCH,
      LOAD_MATCH, CSR_MATCH, JALR_MATCH]
  have hdec : try_decode w = decode_itype w := by
    unfold try_decode
    rw [if_neg (by simp [COMPRESSED_MASK_eq, hlow]), hfmt]
  have himm : itype_imm w =
      (if itype_uimm w < 2 ^ 11 then itype_uimm w
       else itype_uimm w + 0xFFFFF000) := rfl
  have hcsr : decode_itype w =
      (if itype_imm w = 0x120 then .ok .SFenceVma
       else if itype_imm w = 1 then .ok .EBreak
       else if itype_imm w = 0 then .ok .ECall
       else if itype_imm w = 0x302 then .ok .MRet
       else if itype_imm w = 0x102 then .ok .SRet
       else .error (.unknownInstructionFormat
         "Unknown Csr I-Type instruction")) := by
    unfold decode_itype
    norm_num [hop, hf3, ARITMETIC_IMMEDIATE_MATCH, LOAD_MATCH, FLOAD_MATCH,
      JALR_MATCH, FENCE_MATCH, CSR_MATCH, sfencevma_IMM, ebreak_IMM,
      ecall_IMM, mret_IMM, sret_IMM]
  have hval : itype_imm w = itype_uimm w ∨
      itype_imm w = itype_uimm w + 0xFFFFF000 := by
    rw [himm]; split
    · exact Or.inl rfl
    · exact Or.inr rfl
  refine ⟨?_, ?_, ?_, ?_, ?_, ?_⟩
  · intro h
    have h' : itype_imm w = 0 := by rw [himm, h]; norm_num
    rw [hdec, hcsr, h']; norm_num
  · intro h
    have h' : itype_imm w = 1 := by rw [himm, h]; norm_num
    rw [hdec, hcsr, h']; norm_num
  · intro h
    have h' : itype_imm w = 0x102 := by rw [himm, h]; norm_num
    rw [hdec, hcsr, h']; norm_num
  · intro h
    have h' : itype_imm w = 0x302 := by rw [himm, h]; norm_num
    rw [hdec, hcsr, h']; norm_num
  · intro h
    have h' : itype_imm w = 0x120 := by rw [himm, h]; norm_num
    rw [hdec, hcsr, h']; norm_num
  · intro h0 h1 h2 h3 h4
    have hne120 : itype_imm w ≠ 0x120 := by rcases hval with h | h <;> omega
    have hne1 : itype_imm w ≠ 1 := by rcases hval with h | h <;> omega
    have hne0 : itype_imm w ≠ 0 := by rcases hval with h | h <;> omega
    have hne302 : itype_imm w ≠ 0x302 := by rcases hval with h | h <;> omega
    have hne102 : itype_imm w ≠ 0x102 := by rcases hval with h | h <;> omega
    exact ⟨_, by rw [hdec, hcsr, if_neg hne120, if_neg hne1, if_neg hne0,
      if_neg hne302, if_neg hne102]⟩

theorem csr_system_exact_witness :
    opcode 0x00000073 = 115 ∧ funct3 0x00000073 = 0 ∧
      try_decode 0x00000073 = .ok .ECall :=
  ⟨rfl, rfl, (csr_system_exact 0x00000073 rfl rfl).1 rfl⟩

/-! ## Claim C7 -/

theorem decode_quad_fields {w f3 funct5 : Nat} {i : InstructionDecoded}
    (h : decode_quad_precision w f3 funct5 = .ok i) : fieldsInRange i := by
  unfold decode_quad_precision at h
  exact Except.noConfusion h

theorem decode_single_fields {w f3 funct5 : Nat} {i : InstructionDecoded}
    (h : decode_single_precision w f3 funct5 = .ok i) : fieldsInRange i := by
  unfold decode_single_precision at h
  by_cases c1 : funct5 = 0
  · rw [if_pos c1] at h
    injection h with h; subst h
    exact ⟨get_bits5_lt w 7, get_bits5_lt w 15, get_bits5_lt w 20⟩
  rw [if_neg c1] at h
  by_cases c2 : funct5 = 1
  · rw [if_pos c2] at h
    injection h with h; subst h
    exact ⟨get_bits5_lt w 7, get_bits5_lt w 15, get_bits5_lt w 20⟩
  rw [if_neg c2] at h
  by_cases c3 : funct5 = 2
  · rw [if_pos c3] at h
    injection h with h; subst h
    exact ⟨get_bits5_lt w 7, get_bits5_lt w 15, get_bits5_lt w 20⟩
  rw [if_neg c3] at h
  by_cases c4 : funct5 = 3
  · rw [if_pos c4] at h
    injection h with h; subst h
    exact ⟨get_bits5_lt w 7, get_bits5_lt w 15, get_bits5_lt w 20⟩
  rw [if_neg c4] at h
  by_cases c5 : funct5 = 11
  · rw [if_pos c5] at h
    injection h with h; subst h
    exact ⟨get_bits5_lt w 7, get_bits5_lt w 15⟩
  rw [if_neg c5] at h
  by_cases c6 : f3 = 0 ∧ funct5 = 4
  · rw [if_pos c6] at h
    injection h with h; subst h
    exact ⟨get_bits5_lt w 7, get_bits5_lt w 15, get_bits5_lt w 20⟩
  rw [if_neg c6] at h
  by_cases c7 : f3 = 1 ∧ funct5 = 4
  · rw [if_pos c7] at h
    injection h with h; subst h
    exact ⟨get_bits5_lt w 7, get_bits5_lt w 15, get_bits5_lt w 20⟩
  rw [if_neg c7] at h
  by_cases c8 : f3 = 2 ∧ funct5 = 4
  · rw [if_pos c8] at h
    injection h with h; subst h
    exact ⟨get_bits5_lt w 7, get_bits5_lt w 15, get_bits5_lt w 20⟩
  rw [if_neg c8] at h
  by_cases c9 : f3 = 0 ∧ funct5 = 5
  · rw [if_pos c9] at h
    injection h with h; subst h
    exact ⟨get_bits5_lt w 7, get_bits5_lt w 15, get_bits5_lt w 20⟩
  rw [if_neg c9] at h
  by_cases c10 : f3 = 1 ∧ funct5 = 5
  · rw [if_pos c10] at h
    injection h with h; subst h
    exact ⟨get_bits5_lt w 7, get_bits5_lt w 15, get_bits5_lt w 20⟩
  rw [if_neg c10] at h
  by_cases c11 : funct5 = 24
  · rw [if_pos c11] at h
    by_cases c12 : rs2 w = 0
    · rw [if_pos c12] at h
      injection h with h; subst h
      exact ⟨get_bits5_lt w 7, get_bits5_lt w 15⟩
    rw [if_neg c12] at h
    by_cases c13 : rs2 w = 1
    · rw [if_pos c13] at h
      injection h with h; subst h
      exact ⟨get_bits5_lt w 7, get_bits5_lt w 15⟩
    rw [if_neg c13] at h
    exact Except.noConfusion h
  rw [if_neg c11] at h
  by_cases c14 : f3 = 2 ∧ funct5 = 20
  · rw [if_pos c14] at h
    injection h with h; subst h
    exact ⟨get_bits5_lt w 7, get_bits5_lt w 15, get_bits5_lt w 20⟩
  rw [if_neg c14] at h
  by_cases c15 : f3 = 1 ∧ funct5 = 20
  · rw [if_pos c15] at h
    injection h with h; subst h
    exact ⟨get_bits5_lt w 7, get_bits5_lt w 15, get_bits5_lt w 20⟩
  rw [if_neg c15] at h
  by_cases c16 : funct5 = 20
  · rw [if_pos c16] at h
    injection h with h; subst h
    exact ⟨get_bits5_lt w 7, get_bits5_lt w 15, get_bits5_lt w 20⟩
  rw [if_neg c16] at h
  by_cases c17 : f3 = 1 ∧ funct5 = 28
  · rw [if_pos c17] at h
    injection h with h; subst h
    exact ⟨get_bits5_lt w 7, get_bits5_lt w 15⟩
  rw [if_neg c17] at h
  by_cases c18 : funct5 = 26
  · rw [if_pos c18] at h
    injection h with h; subst h
    exact ⟨get_bits5_lt w 7, get_bits5_lt w 15⟩
  rw [if_neg c18] at h
  by_cases c19 : funct5 = 26
  · rw [if_pos c19] at h
    injection h with h; subst h
    exact ⟨get_bits5_lt w 7, get_bits5_lt w 15⟩
  rw [if_neg c19] at h
  by_cases c20 : funct5 = 28
  · rw [if_pos c20] at h
    injection h with h; subst h
    exact ⟨get_bits5_lt w 7, get_bits5_lt w 15⟩
  rw [if_neg c20] at h
  by_cases c21 : funct5 = 30
  · rw [if_pos c21] at h
    injection h with h; subst h
    exact ⟨get_bits5_lt w 7, get_bits5_lt w 15⟩
  rw [if_neg c21] at h
  by_cases c22 : funct5 = 8
  · rw [if_pos c22] at h
    injection h with h; subst h
    exact ⟨get_bits5_lt w 7, get_bits5_lt w 15⟩
  rw [if_neg c22] at h
  exact Except.noConfusion h

theorem decode_double_fields {w f3 funct5 : Nat} {i : InstructionDecoded}
    (h : decode_double_precision w f3 funct5 = .ok i) : fieldsInRange i := by
  unfold decode_double_precision at h
  by_cases c1 : funct5 = 26
  · rw [if_pos c1] at h
    by_cases c2 : rs2 w = 0
    · rw [if_pos c2] at h
      injection h with h; subst h
      exact ⟨get_bits5_lt w 7, get_bits5_lt w 15⟩
    rw [if_neg c2] at h
    by_cases c3 : rs2 w = 1
    · rw [if_pos c3] at h
      injection h with h; subst h
      exact ⟨get_bits5_lt w 7, get_bits5_lt w 15⟩
    rw [if_neg c3] at h
    exact Except.noConfusion h
  rw [if_neg c1] at h
  by_cases c4 : funct5 = 0
  · rw [if_pos c4] at h
    injection h with h; subst h
    exact ⟨get_bits5_lt w 7, get_bits5_lt w 15, get_bits5_lt w 20⟩
  rw [if_neg c4] at h
  by_cases c5 : funct5 = 1
  · rw [if_pos c5] at h
    injection h with h; subst h
    exact ⟨get_bits5_lt w 7, get_bits5_lt w 15, get_bits5_lt w 20⟩
  rw [if_neg c5] at h
  by_cases c6 : funct5 = 2
  · rw [if_pos c6] at h
    injection h with h; subst h
    exact ⟨get_bits5_lt w 7, get_bits5_lt w 15, get_bits5_lt w 20⟩
  rw [if_neg c6] at h
  by_cases c7 : funct5 = 3
  · rw [if_pos c7] at h
    injection h with h; subst h
    exact ⟨get_bits5_lt w 7, get_bits5_lt w 15, get_bits5_lt w 20⟩
  rw [if_neg c7] at h
  by_cases c8 : f3 = 0 ∧ funct5 = 4
  · rw [if_pos c8] at h
    injection h with h; subst h
    exact ⟨get_bits5_lt w 7, get_bits5_lt w 15, get_bits5_lt w 20⟩
  rw [if_neg c8] at h
  by_cases c9 : f3 = 1 ∧ funct5 = 4
  · rw [if_pos c9] at h
    injection h with h; subst h
    exact ⟨get_bits5_lt w 7, get_bits5_lt w 15, get_bits5_lt w 20⟩
  rw [if_neg c9] at h
  by_cases c10 : f3 = 2 ∧ funct5 = 4
  · rw [if_pos c10] at h
    injection h with h; subst h
    exact ⟨get_bits5_lt w 7, get_bits5_lt w 15, get_bits5_lt w 20⟩
  rw [if_neg c10] at h
  by_cases c11 : f3 = 0 ∧ funct5 = 5
  · rw [if_pos c11] at h
    injection h with h; subst h
    exact ⟨get_bits5_lt w 7, get_bits5_lt w 15, get_bits5_lt w 20⟩
  rw [if_neg c11] at h
  by_cases c12 : f3 = 1 ∧ funct5 = 5
  · rw [if_pos c12] at h
    injection h with h; subst h
    exact ⟨get_bits5_lt w 7, get_bits5_lt w 15, get_bits5_lt w 20⟩
  rw [if_neg c12] at h
  by_cases c13 : funct5 = 8
  · rw [if_pos c13] at h
    injection h with h; subst h
    exact ⟨get_bits5_lt w 7, get_bits5_lt w 15⟩
  rw [if_neg c13] at h
  by_cases c14 : f3 = 2 ∧ funct5 = 20
  · rw [if_pos c14] at h
    injection h with h; subst h
    exact ⟨get_bits5_lt w 7, get_bits5_lt w 15, get_bits5_lt w 20⟩
  rw [if_neg c14] at h
  by_cases c15 : f3 = 1 ∧ funct5 = 20
  · rw [if_pos c15] at h
    injection h with h; subst h
    exact ⟨get_bits5_lt w 7, get_bits5_lt w 15, get_bits5_lt w 20⟩
  rw [if_neg c15] at h
  by_cases c16 : f3 = 0 ∧ funct5 = 20
  · rw [if_pos c16] at h
    injection h with h; subst h
    exact ⟨get_bits5_lt w 7, get_bits5_lt w 15, get_bits5_lt w 20⟩
  rw [if_neg c16] at h
  by_cases c17 : f3 = 1 ∧ funct5 = 28
  · rw [if_pos c17] at h
    injection h with h; subst h
    exact ⟨get_bits5_lt w 7, get_bits5_lt w 15⟩
  rw [if_neg c17] at h
  by_cases c18 : funct5 = 24
  · rw [if_pos c18] at h
    by_cases c19 : rs2 w = 0
    · rw [if_pos c19] at h
      injection h with h; subst h
      exact ⟨get_bits5_lt w 7, get_bits5_lt w 15⟩
    rw [if_neg c19] at h
    by_cases c20 : rs2 w = 1
    · rw [if_pos c20] at h
      injection h with h; subst h
      exact ⟨get_bits5_lt w 7, get_bits5_lt w 15⟩
    rw [if_neg c20] at h
    exact Except.noConfusion h
  rw [if_neg c18] at h
  by_cases c21 : funct5 = 11
  · rw [if_pos c21] at h
    injection h with h; subst h
    exact ⟨get_bits5_lt w 7, get_bits5_lt w 15⟩
  rw [if_neg c21] at h
  exact Except.noConfusion h

theorem decode_rtype_fields {w : Nat} {i : InstructionDecoded}
    (h : decode_rtype w = .ok i) : fieldsInRange i := by
  unfold decode_rtype at h
  by_cases c1 : opcode w = ARITMETIC_REGISTER_MATCH
  · rw [if_pos c1] at h
    by_cases c2 : funct3 w = 0 ∧ funct7 w = 0
    · rw [if_pos c2] at h
      injection h with h; subst h
      exact ⟨get_bits5_lt w 7, get_bits5_lt w 15, get_bits5_lt w 20⟩
    rw [if_neg c2] at h
    by_cases c3 : funct3 w = 0 ∧ funct7 w = 32
    · rw [if_pos c3] at h
      injection h with h; subst h
      exact ⟨get_bits5_lt w 7, get_bits5_lt w 15, get_bits5_lt w 20⟩
    rw [if_neg c3] at h
    by_cases c4 : funct3 w = 1 ∧ funct7 w = 0
    · rw [if_pos c4] at h
      injection h with h; subst h
      exact ⟨get_bits5_lt w 7, get_bits5_lt w 15, get_bits5_lt w 20⟩
    rw [if_neg c4] at h
    by_cases c5 : funct3 w = 2 ∧ funct7 w = 0
    · rw [if_pos c5] at h
      injection h with h; subst h
      exact ⟨get_bits5_lt w 7, get_bits5_lt w 15, get_bits5_lt w 20⟩
    rw [if_neg c5] at h
    by_cases c6 : funct3 w = 3 ∧ funct7 w = 0
    · rw [if_pos c6] at h
      injection h with h; subst h
      exact ⟨get_bits5_lt w 7, get_bits5_lt w 15, get_bits5_lt w 20⟩
    rw [if_neg c6] at h
    by_cases c7 : funct3 w = 4 ∧ funct7 w = 0
    · rw [if_pos c7] at h
      injection h with h; subst h
      exact ⟨get_bits5_lt w 7, get_bits5_lt w 15, get_bits5_lt w 20⟩
    rw [if_neg c7] at h
    by_cases c8 : funct3 w = 5 ∧ funct7 w = 0
    · rw [if_pos c8] at h
      injection h with h; subst h
      exact ⟨get_bits5_lt w 7, get_bits5_lt w 15, get_bits5_lt w 20⟩
    rw [if_neg c8] at h
    by_cases c9 : funct3 w = 5 ∧ funct7 w = 32
    · rw [if_pos c9] at h
      injection h with h; subst h
      exact ⟨get_bits5_lt w 7, get_bits5_lt w 15, get_bits5_lt w 20⟩
    rw [if_neg c9] at h
    by_cases c10 : funct3 w = 6 ∧ funct7 w = 0
    · rw [if_pos c10] at h
      injection h with h; subst h
      exact ⟨get_bits5_lt w 7, get_bits5_lt w 15, get_bits5_lt w 20⟩
    rw [if_neg c10] at h
    by_cases c11 : funct3 w = 7 ∧ funct7 w = 0
    · rw [if_pos c11] at h
      injection h with h; subst h
      exact ⟨get_bits5_lt w 7, get_bits5_lt w 15, get_bits5_lt w 20⟩
    rw [if_neg c11] at h
    by_cases c12 : funct3 w = 0 ∧ funct7 w = 1
    · rw [if_pos c12] at h
      injection h with h; subst h
      exact ⟨get_bits5_lt w 7, get_bits5_lt w 15, get_bits5_lt w 20⟩
    rw [if_neg c12] at h
    by_cases c13 : funct3 w = 1 ∧ funct7 w = 1
    · rw [if_pos c13] at h
      injection h with h; subst h
      exact ⟨get_bits5_lt w 7, get_bits5_lt w 15, get_bits5_lt w 20⟩
    rw [if_neg c13] at h
    by_cases c14 : funct3 w = 3 ∧ funct7 w = 1
    · rw [if_pos c14] at h
      injection h with h; subst h
      exact ⟨get_bits5_lt w 7, get_bits5_lt w 15, get_bits5_lt w 20⟩
    rw [if_neg c14] at h
    by_cases c15 : funct3 w = 2 ∧ funct7 w = 1
    · rw [if_pos c15] at h
      injection h with h; subst h
      exact ⟨get_bits5_lt w 7, get_bits5_lt w 15, get_bits5_lt w 20⟩
    rw [if_neg c15] at h
    by_cases c16 : funct3 w = 4 ∧ funct7 w = 1
    · rw [if_pos c16] at h
      injection h with h; subst h
      exact ⟨get_bits5_lt w 7, get_bits5_lt w 15, get_bits5_lt w 20⟩
    rw [if_neg c16] at h
    by_cases c17 : funct3 w = 5 ∧ funct7 w = 1
    · rw [if_pos c17] at h
      injection h with h; subst h
      exact ⟨get_bits5_lt w 7, get_bits5_lt w 15, get_bits5_lt w 20⟩
    rw [if_neg c17] at h
    by_cases c18 : funct3 w = 6 ∧ funct7 w = 1
    · rw [if_pos c18] at h
      injection h with h; subst h
      exact ⟨get_bits5_lt w 7, get_bits5_lt w 15, get_bits5_lt w 20⟩
    rw [if_neg c18] at h
    by_cases c19 : funct3 w = 7 ∧ funct7 w = 1
    · rw [if_pos c19] at h
      injection h with h; subst h
      exact ⟨get_bits5_lt w 7, get_bits5_lt w 15, get_bits5_lt w 20⟩
    rw [if_neg c19] at h
    exact Except.noConfusion h
  rw [if_neg c1] at h
  by_cases c20 : opcode w = ATOMIC_MATCH
  · rw [if_pos c20] at h
    by_cases c21 : funct3 w = 2 ∧ get_bits (funct7 w) 5 2 = 1
    · rw [if_pos c21] at h
      injection h with h; subst h
      exact ⟨get_bits5_lt w 7, get_bits5_lt w 15, get_bits5_lt w 20⟩
    rw [if_neg c21] at h
    exact Except.noConfusion h
  rw [if_neg c20] at h
  by_cases c22 : opcode w = FLOATING_POINT_MATCH
  · rw [if_pos c22] at h
    by_cases c23 : get_bits (funct7 w) 2 0 = 0
    · rw [if_pos c23] at h
      exact decode_single_fields h
    rw [if_neg c23] at h
    by_cases c24 : get_bits (funct7 w) 2 0 = 1
    · rw [if_pos c24] at h
      exact decode_double_fields h
    rw [if_neg c24] at h
    by_cases c25 : get_bits (funct7 w) 2 0 = 3
    · rw [if_pos c25] at h
      exact decode_quad_fields h
    rw [if_neg c25] at h
    exact Except.noConfusion h
  rw [if_neg c22] at h
  by_cases c26 : opcode w = FMADDD_MATCH
  · rw [if_pos c26] at h
    injection h with h; subst h
    exact ⟨get_bits5_lt w 7, get_bits5_lt w 15, get_bits5_lt w 20, get_bits5_lt (funct7 w) 2⟩
  rw [if_neg c26] at h
  by_cases c27 : opcode w = FMSUBD_MATCH
  · rw [if_pos c27] at h
    injection h with h; subst h
    exact ⟨get_bits5_lt w 7, get_bits5_lt w 15, get_bits5_lt w 20, get_bits5_lt (funct7 w) 2⟩
  rw [if_neg c27] at h
  by_cases c28 : opcode w = FNMADDD_MATCH
  · rw [if_pos c28] at h
    injection h with h; subst h
    exact ⟨get_bits5_lt w 7, get_bits5_lt w 15, get_bits5_lt w 20, get_bits5_lt (funct7 w) 2⟩
  rw [if_neg c28] at h
  by_cases c29 : opcode w = FNMSUBD_MATCH
  · rw [if_pos c29] at h
    injection h with h; subst h
    exact ⟨get_bits5_lt w 7, get_bits5_lt w 15, get_bits5_lt w 20, get_bits5_lt (funct7 w) 2⟩
  rw [if_neg c29] at h
  exact Except.noConfusion h

theorem decode_itype_fields {w : Nat} {i : InstructionDecoded}
    (h : decode_itype w = .ok i) : fieldsInRange i := by
  unfold decode_itype at h
  by_cases c1 : opcode w = ARITMETIC_IMMEDIATE_MATCH
  · rw [if_pos c1] at h
    by_cases c2 : funct3 w = 0
    · rw [if_pos c2] at h
      injection h with h; subst h
      exact ⟨get_bits5_lt w 7, get_bits5_lt w 15⟩
    rw [if_neg c2] at h
    by_cases c3 : funct3 w = 2
    · rw [if_pos c3] at h
      injection h with h; subst h
      exact ⟨get_bits5_lt w 7, get_bits5_lt w 15⟩
    rw [if_neg c3] at h
    by_cases c4 : funct3 w = 3
    · rw [if_pos c4] at h
      injection h with h; subst h
      exact ⟨get_bits5_lt w 7, get_bits5_lt w 15⟩
    rw [if_neg c4] at h
    by_cases c5 : funct3 w = 4
    · rw [if_pos c5] at h
      injection h with h; subst h
      exact ⟨get_bits5_lt w 7, get_bits5_lt w 15⟩
    rw [if_neg c5] at h
    by_cases c6 : funct3 w = 6
    · rw [if_pos c6] at h
      injection h with h; subst h
      exact ⟨get_bits5_lt w 7, get_bits5_lt w 15⟩
    rw [if_neg c6] at h
    by_cases c7 : funct3 w = 7
    · rw [if_pos c7] at h
      injection h with h; subst h
      exact ⟨get_bits5_lt w 7, get_bits5_lt w 15⟩
    rw [if_neg c7] at h
    by_cases c8 : funct3 w = 1 ∧ get_bits (itype_imm w) 6 5 = slli_IMM
    · rw [if_pos c8] at h
      injection h with h; subst h
      exact ⟨get_bits5_lt w 7, get_bits5_lt w 15⟩
    rw [if_neg c8] at h
    by_cases c9 : funct3 w = 5 ∧ get_bits (itype_imm w) 6 5 = srli_IMM
    · rw [if_pos c9] at h
      injection h with h; subst h
      exact ⟨get_bits5_lt w 7, get_bits5_lt w 15⟩
    rw [if_neg c9] at h
    by_cases c10 : funct3 w = 5 ∧ get_bits (itype_imm w) 6 5 = srai_IMM
    · rw [if_pos c10] at h
      injection h with h; subst h
      exact ⟨get_bits5_lt w 7, get_bits5_lt w 15⟩
    rw [if_neg c10] at h
    exact Except.noConfusion h
  rw [if_neg c1] at h
  by_cases c11 : opcode w = LOAD_MATCH
  · rw [if_pos c11] at h
    by_cases c12 : funct3 w = 0
    · rw [if_pos c12] at h
      injection h with h; subst h
      exact ⟨get_bits5_lt w 7, get_bits5_lt w 15⟩
    rw [if_neg c12] at h
    by_cases c13 : funct3 w = 1
    · rw [if_pos c13] at h
      injection h with h; subst h
      exact ⟨get_bits5_lt w 7, get_bits5_lt w 15⟩
    rw [if_neg c13] at h
    by_cases c14 : funct3 w = 2
    · rw [if_pos c14] at h
      injection h with h; subst h
      exact ⟨get_bits5_lt w 7, get_bits5_lt w 15⟩
    rw [if_neg c14] at h
    by_cases c15 : funct3 w = 4
    · rw [if_pos c15] at h
      injection h with h; subst h
      exact ⟨get_bits5_lt w 7, get_bits5_lt w 15⟩
    rw [if_neg c15] at h
    by_cases c16 : funct3 w = 5
    · rw [if_pos c16] at h
      injection h with h; subst h
      exact ⟨get_bits5_lt w 7, get_bits5_lt w 15⟩
    rw [if_neg c16] at h
    exact Except.noConfusion h
  rw [if_neg c11] at h
  by_cases c17 : opcode w = FLOAD_MATCH
  · rw [if_pos c17] at h
    by_cases c18 : funct3 w = 2
    · rw [if_pos c18] at h
      injection h with h; subst h
      exact ⟨get_bits5_lt w 7, get_bits5_lt w 15⟩
    rw [if_neg c18] at h
    by_cases c19 : funct3 w = 3
    · rw [if_pos c19] at h
      injection h with h; subst h
      exact ⟨get_bits5_lt w 7, get_bits5_lt w 15⟩
    rw [if_neg c19] at h
    exact Except.noConfusion h
  rw [if_neg c17] at h
  by_cases c20 : opcode w = JALR_MATCH ∧ funct3 w = 0
  · rw [if_pos c20] at h
    injection h with h; subst h
    exact ⟨get_bits5_lt w 7, get_bits5_lt w 15⟩
  rw [if_neg c20] at h
  by_cases c21 : opcode w = FENCE_MATCH
  · rw [if_pos c21] at h
    by_cases c22 : funct3 w = 0
    · rw [if_pos c22] at h
      injection h with h; subst h; trivial
    rw [if_neg c22] at h
    by_cases c23 : funct3 w = 1
    · rw [if_pos c23] at h
      injection h with h; subst h; trivial
    rw [if_neg c23] at h
    exact Except.noConfusion h
  rw [if_neg c21] at h
  by_cases c24 : opcode w = CSR_MATCH
  · rw [if_pos c24] at h
    by_cases c25 : funct3 w = 1
    · rw [if_pos c25] at h
      injection h with h; subst h
      exact ⟨get_bits5_lt w 7, get_bits5_lt w 15, get_bits12_lt w 20⟩
    rw [if_neg c25] at h
    by_cases c26 : funct3 w = 2
    · rw [if_pos c26] at h
      injection h with h; subst h
      exact ⟨get_bits5_lt w 7, get_bits5_lt w 15, get_bits12_lt w 20⟩
    rw [if_neg c26] at h
    by_cases c27 : funct3 w = 3
    · rw [if_pos c27] at h
      injection h with h; subst h
      exact ⟨get_bits5_lt w 7, get_bits5_lt w 15, get_bits12_lt w 20⟩
    rw [if_neg c27] at h
    by_cases c28 : funct3 w = 5
    · rw [if_pos c28] at h
      injection h with h; subst h
      exact ⟨get_bits5_lt w 7, get_bits5_lt w 15, get_bits12_lt w 20⟩
    rw [if_neg c28] at h
    by_cases c29 : funct3 w = 6
    · rw [if_pos c29] at h
      injection h with h; subst h
      exact ⟨get_bits5_lt w 7, get_bits5_lt w 15, get_bits12_lt w 20⟩
    rw [if_neg c29] at h
    by_cases c30 : funct3 w = 7
    · rw [if_pos c30] at h
      injection h with h; subst h
      exact ⟨get_bits5_lt w 7, get_bits5_lt w 15, get_bits12_lt w 20⟩
    rw [if_neg c30] at h
    by_cases c31 : funct3 w = 0 ∧ itype_imm w = sfencevma_IMM
    · rw [if_pos c31] at h
      injection h with h; subst h; trivial
    rw [if_neg c31] at h
    by_cases c32 : funct3 w = 0 ∧ itype_imm w = ebreak_IMM
    · rw [if_pos c32] at h
      injection h with h; subst h; trivial
    rw [if_neg c32] at h
    by_cases c33 : funct3 w = 0 ∧ itype_imm w = ecall_IMM
    · rw [if_pos c33] at h
      injection h with h; subst h; trivial
    rw [if_neg c33] at h
    by_cases c34 : funct3 w = 0 ∧ itype_imm w = mret_IMM
    · rw [if_pos c34] at h
      injection h with h; subst h; trivial
    rw [if_neg c34] at h
    by_cases c35 : funct3 w = 0 ∧ itype_imm w = sret_IMM
    · rw [if_pos c35] at h
      injection h with h; subst h; trivial
    rw [if_neg c35] at h
    exact Except.noConfusion h
  rw [if_neg c24] at h
  exact Except.noConfusion h

theorem decode_stype_fields {w : Nat} {i : InstructionDecoded}
    (h : decode_stype w = .ok i) : fieldsInRange i := by
  unfold decode_stype at h
  by_cases c1 : opcode w = STORE_MATCH
  · rw [if_pos c1] at h
    by_cases c2 : funct3 w = 0
    · rw [if_pos c2] at h
      injection h with h; subst h
      exact ⟨get_bits5_lt w 15, get_bits5_lt w 20⟩
    rw [if_neg c2] at h
    by_cases c3 : funct3 w = 1
    · rw [if_pos c3] at h
      injection h with h; subst h
      exact ⟨get_bits5_lt w 15, get_bits5_lt w 20⟩
    rw [if_neg c3] at h
    by_cases c4 : funct3 w = 2
    · rw [if_pos c4] at h
      injection h with h; subst h
      exact ⟨get_bits5_lt w 15, get_bits5_lt w 20⟩
    rw [if_neg c4] at h
    exact Except.noConfusion h
  rw [if_neg c1] at h
  by_cases c5 : opcode w = FSTORE_MATCH
  · rw [if_pos c5] at h
    by_cases c6 : funct3 w = 2
    · rw [if_pos c6] at h
      injection h with h; subst h
      exact ⟨get_bits5_lt w 15, get_bits5_lt w 20⟩
    rw [if_neg c6] at h
    by_cases c7 : funct3 w = 3
    · rw [if_pos c7] at h
      injection h with h; subst h
      exact ⟨get_bits5_lt w 15, get_bits5_lt w 20⟩
    rw [if_neg c7] at h
    exact Except.noConfusion h
  rw [if_neg c5] at h
  exact Except.noConfusion h

theorem decode_utype_fields {w : Nat} {i : InstructionDecoded}
    (h : decode_utype w = .ok i) : fieldsInRange i := by
  unfold decode_utype at h
  by_cases c1 : opcode w = LUI_MATCH
  · rw [if_pos c1] at h
    injection h with h; subst h
    exact get_bits5_lt w 7
  rw [if_neg c1] at h
  by_cases c2 : opcode w = AUIPC_MATCH
  · rw [if_pos c2] at h
    injection h with h; subst h
    exact get_bits5_lt w 7
  rw [if_neg c2] at h
  exact Except.noConfusion h

theorem decode_btype_fields {w : Nat} {i : InstructionDecoded}
    (h : decode_btype w = .ok i) : fieldsInRange i := by
  unfold decode_btype at h
  by_cases c1 : funct3 w = 0
  · rw [if_pos c1] at h
    injection h with h; subst h
    exact ⟨get_bits5_lt w 15, get_bits5_lt w 20⟩
  rw [if_neg c1] at h
  by_cases c2 : funct3 w = 1
  · rw [if_pos c2] at h
    injection h with h; subst h
    exact ⟨get_bits5_lt w 15, get_bits5_lt w 20⟩
  rw [if_neg c2] at h
  by_cases c3 : funct3 w = 4
  · rw [if_pos c3] at h
    injection h with h; subst h
    exact ⟨get_bits5_lt w 15, get_bits5_lt w 20⟩
  rw [if_neg c3] at h
  by_cases c4 : funct3 w = 5
  · rw [if_pos c4] at h
    injection h with h; subst h
    exact ⟨get_bits5_lt w 15, get_bits5_lt w 20⟩
  rw [if_neg c4] at h
  by_cases c5 : funct3 w = 6
  · rw [if_pos c5] at h
    injection h with h; subst h
    exact ⟨get_bits5_lt w 15, get_bits5_lt w 20⟩
  rw [if_neg c5] at h
  by_cases c6 : funct3 w = 7
  · rw [if_pos c6] at h
    injection h with h; subst h
    exact ⟨get_bits5_lt w 15, get_bits5_lt w 20⟩
  rw [if_neg c6] at h
  exact Except.noConfusion h

theorem decode_jtype_fields {w : Nat} {i : InstructionDecoded}
    (h : decode_jtype w = .ok i) : fieldsInRange i := by
  unfold decode_jtype at h
  by_cases c1 : opcode w = JAL_MATCH
  · rw [if_pos c1] at h
    injection h with h; subst h
    exact get_bits5_lt w 7
  rw [if_neg c1] at h
  exact Except.noConfusion h

/-- C7: for every word on which `try_decode` returns `Ok`, every
register-index field (rd, rs1, rs2, rs3) of the resulting variant lies in
[0, 31], and the CSR-address immediate of every CSR variant (CsrRw, CsrRs,
CsrRc, CsrRwi, CsrRsi, CsrRci) lies in [0, 4095]. -/
theorem try_decode_fields (w : Nat) (i : InstructionDecoded)
    (h : try_decode w = .ok i) : fieldsInRange i := by
  unfold try_decode at h
  by_cases c0 : w &&& COMPRESSED_MASK = 0 ∨ w &&& COMPRESSED_MASK = 1 ∨
    w &&& COMPRESSED_MASK = 2
  · rw [if_pos c0] at h
    unfold try_decode_compressed at h
    exact Except.noConfusion h
  rw [if_neg c0] at h
  cases hf : classify_format w with
  | error e => rw [hf] at h; exact Except.noConfusion h
  | ok f =>
    rw [hf] at h
    cases f with
    | RType => exact decode_rtype_fields h
    | IType => exact decode_itype_fields h
    | SType => exact decode_stype_fields h
    | UType => exact decode_utype_fields h
    | BType => exact decode_btype_fields h
    | JType => exact decode_jtype_fields h

theorem try_decode_fields_witness :
    try_decode 0x00c12603 = .ok (.Lw 12 2 12) ∧ fieldsInRange (.Lw 12 2 12) :=
  ⟨rfl, try_decode_fields 0x00c12603 (.Lw 12 2 12) rfl⟩

/-! ## Claim C8 -/

/-- C8 (counterexample): decoding 0xCF4A7AF does yield AMOSWAP.W with
aq = true, rl = false (and rd = 15/a5, rs1 = 9/s1, rs2 = 15/a5), but
rendering the decoded value does not produce exactly
"amoswap.w a5, s1, a5": the Display arm appends the rl and aq flags. -/
theorem amoswap_render_counterexample :
    try_decode 0xCF4A7AF = .ok (.AmoswapW 15 9 15 false true) ∧
      renderInstruction (fun _ => none) (.AmoswapW 15 9 15 false true) ≠
        some "amoswap.w a5, s1, a5" :=
  ⟨rfl, by decide⟩

/-- C8 (amended): decoding the word 0xCF4A7AF yields the AMOSWAP.W variant
with rd = 15, rs1 = 9, rs2 = 15 and aq = true, rl = false extracted from
the low two bits of funct7, and rendering that decoded value produces the
assembler text "amoswap.w a5, s1, a5, 0, 1" — the operands in ABI register
names followed by rl and aq printed as 0/1 integers. -/
theorem amoswap_render :
    try_decode 0xCF4A7AF = .ok (.AmoswapW 15 9 15 false true) ∧
      renderInstruction (fun _ => none) (.AmoswapW 15 9 15 false true) =
        some "amoswap.w a5, s1, a5, 0, 1" :=
  ⟨rfl, rfl⟩

/-! ## Claim C9 -/

theorem regName_eq_some {n : Nat} (h : n < 32) : regName n = some (regNameT n) := by
  unfold regName regNameT
  interval_cases n <;> rfl

/-- C9: rendering a decoded CSRRS with rd = 0 (the zero register) or with
rd = rs1 produces the short mnemonic `csrs` and omits the destination
register operand, while a CSRRS with rd ≠ 0 and rd ≠ rs1 produces the
long mnemonic `csrrs` followed by destination register, CSR name, and
source register. -/
theorem csrrs_render_forms (table : Nat → Option String) (r s imm : Nat)
    (hr : r < 32) (hs : s < 32) :
    ((r = 0 ∨ r = s) →
      renderInstruction table (.CsrRs r s imm) =
        some ("csrs " ++ csrDisplay table imm ++ ", " ++ regNameT s)) ∧
    (r ≠ 0 → r ≠ s →
      renderInstruction table (.CsrRs r s imm) =
        some ("csrrs " ++ regNameT r ++ ", " ++ csrDisplay table imm ++
          ", " ++ regNameT s)) := by
  have hred : renderInstruction table (.CsrRs r s imm) =
      print_csr table "csrs" "csrrs" r s imm := rfl
  constructor
  · intro hcase
    rw [hred]
    unfold print_csr
    rw [if_pos hcase, regName_eq_some hs]
    rfl
  · intro h0 hrs
    rw [hred]
    unfold print_csr
    rw [if_neg (by tauto), regName_eq_some hr, regName_eq_some hs]
    rfl

theorem csrrs_render_forms_witness :
    (0 : Nat) < 32 ∧ (5 : Nat) < 32 ∧ (3 : Nat) < 32 ∧
      renderInstruction (fun _ => none) (.CsrRs 0 3 0x305) =
        some "csrs 773, gp" ∧
      renderInstruction (fun _ => none) (.CsrRs 5 3 0x305) =
        some "csrrs t0, 773, gp" :=
  ⟨by norm_num, by norm_num, by norm_num,
    ((csrrs_render_forms (fun _ => none) 0 3 0x305 (by norm_num)
      (by norm_num)).1 (Or.inl rfl)).trans rfl,
    ((csrrs_render_forms (fun _ => none) 5 3 0x305 (by norm_num)
      (by norm_num)).2 (by norm_num) (by norm_num)).trans rfl⟩

/-! ## Claim C10 -/

theorem regName_isSome {n : Nat} (h : n < 32) : ∃ x, regName n = some x :=
  ⟨regNameT n, regName_eq_some h⟩

theorem bindReg_isSome {r : Nat} {f : String → Option String} (h : r < 32)
    (hf : ∀ x, (f x).isSome = true) : ((regName r).bind f).isSome = true := by
  obtain ⟨x, hx⟩ := regName_isSome h
  rw [hx]; exact hf x

theorem fmtR_isSome {name : String} {a b c : Nat} (ha : a < 32) (hb : b < 32)
    (hc : c < 32) : (fmtR name a b c).isSome = true :=
  bindReg_isSome ha fun _ => bindReg_isSome hb fun _ =>
    bindReg_isSome hc fun _ => rfl

theorem fmtR4_isSome {name : String} {a b c d : Nat} (ha : a < 32)
    (hb : b < 32) (hc : c < 32) (hd : d < 32) :
    (fmtR4 name a b c d).isSome = true :=
  bindReg_isSome ha fun _ => bindReg_isSome hb fun _ =>
    bindReg_isSome hc fun _ => bindReg_isSome hd fun _ => rfl

theorem fmtMem_isSome {name : String} {a imm b : Nat} (ha : a < 32)
    (hb : b < 32) : (fmtMem name a imm b).isSome = true :=
  bindReg_isSome ha fun _ => bindReg_isSome hb fun _ => rfl

theorem fmtRRI_isSome {name : String} {a b imm : Nat} (ha : a < 32)
    (hb : b < 32) : (fmtRRI name a b imm).isSome = true :=
  bindReg_isSome ha fun _ => bindReg_isSome hb fun _ => rfl

theorem fmtRR_isSome {name : String} {a b : Nat} (ha : a < 32)
    (hb : b < 32) : (fmtRR name a b).isSome = true :=
  bindReg_isSome ha fun _ => bindReg_isSome hb fun _ => rfl

theorem fmtAmo_isSome {name : String} {a b c : Nat} {rl aq : Bool}
    (ha : a < 32) (hb : b < 32) (hc : c < 32) :
    (fmtAmo name a b c rl aq).isSome = true :=
  bindReg_isSome ha fun _ => bindReg_isSome hb fun _ =>
    bindReg_isSome hc fun _ => rfl

theorem print_csr_isSome {table : Nat → Option String} {name nameExp : String}
    {r s imm : Nat} (hr : r < 32) (hs : s < 32) :
    (print_csr table name nameExp r s imm).isSome = true := by
  unfold print_csr
  split
  · exact bindReg_isSome hs fun _ => rfl
  · exact bindReg_isSome hr fun _ => bindReg_isSome hs fun _ => rfl

/-- C10 (counterexample): rendering fails on some DecodedInstruction
values: the variant Add with rd = 32 — constructible, since operand
fields are plain u32 values — makes the Display implementation index
REG_NAMES[32], out of bounds for the 32-entry table, and panic (`none`
in the embedding); so rendering is not total over every value. -/
theorem render_out_of_range_counterexample :
    renderInstruction (fun _ => none) (.Add 32 0 0) = none := rfl

theorem fmtJalr_isSome {r s imm : Nat} (hr : r < 32) (hs : s < 32) :
    (fmtJalr r s imm).isSome = true := by
  unfold fmtJalr
  repeat' split
  all_goals first
    | exact bindReg_isSome hr fun _ => rfl
    | exact bindReg_isSome hr fun _ => bindReg_isSome hs fun _ => rfl

theorem render_total_aux (table : Nat → Option String) :
    ∀ (i : InstructionDecoded), fieldsInRange i →
      (renderInstruction table i).isSome = true
  | .Lb r s _, hf => fmtMem_isSome hf.1 hf.2
  | .Lh r s _, hf => fmtMem_isSome hf.1 hf.2
  | .Lw r s _, hf => fmtMem_isSome hf.1 hf.2
  | .Lbu r s _, hf => fmtMem_isSome hf.1 hf.2
  | .Lhu r s _, hf => fmtMem_isSome hf.1 hf.2
  | .Lwu r s _, hf => fmtMem_isSome hf.1 hf.2
  | .Flw r s _, hf => fmtMem_isSome hf.1 hf.2
  | .Fld r s _, hf => fmtMem_isSome hf.1 hf.2
  | .Sb r s _, hf => fmtMem_isSome hf.2 hf.1
  | .Sh r s _, hf => fmtMem_isSome hf.2 hf.1
  | .Sw r s _, hf => fmtMem_isSome hf.2 hf.1
  | .Fsw r s _, hf => fmtMem_isSome hf.2 hf.1
  | .Fsd r s _, hf => fmtMem_isSome hf.2 hf.1
  | .Addi r s _, hf => fmtRRI_isSome hf.1 hf.2
  | .Slli r s _, hf => fmtRRI_isSome hf.1 hf.2
  | .Slti r s _, hf => fmtRRI_isSome hf.1 hf.2
  | .Sltiu r s _, hf => fmtRRI_isSome hf.1 hf.2
  | .Xori r s _, hf => fmtRRI_isSome hf.1 hf.2
  | .Srli r s _, hf => fmtRRI_isSome hf.1 hf.2
  | .Srai r s _, hf => fmtRRI_isSome hf.1 hf.2
  | .Ori r s _, hf => fmtRRI_isSome hf.1 hf.2
  | .Andi r s _, hf => fmtRRI_isSome hf.1 hf.2
  | .Beq r s _, hf => fmtRRI_isSome hf.1 hf.2
  | .Bne r s _, hf => fmtRRI_isSome hf.1 hf.2
  | .Blt r s _, hf => fmtRRI_isSome hf.1 hf.2
  | .Bge r s _, hf => fmtRRI_isSome hf.1 hf.2
  | .Bltu r s _, hf => fmtRRI_isSome hf.1 hf.2
  | .Bgeu r s _, hf => fmtRRI_isSome hf.1 hf.2
  | .CSlli r s _, hf => fmtRRI_isSome hf.1 hf.2
  | .AuiPc r _, hf => bindReg_isSome hf fun _ => rfl
  | .Lui r _, hf => bindReg_isSome hf fun _ => rfl
  | .Jal r _, hf => bindReg_isSome hf fun _ => rfl
  | .CAddi4Spn r _, hf => bindReg_isSome hf fun _ => rfl
  | .Add r s t, hf => fmtR_isSome hf.1 hf.2.1 hf.2.2
  | .Sub r s t, hf => fmtR_isSome hf.1 hf.2.1 hf.2.2
  | .Sll r s t, hf => fmtR_isSome hf.1 hf.2.1 hf.2.2
  | .Slt r s t, hf => fmtR_isSome hf.1 hf.2.1 hf.2.2
  | .Sltu r s t, hf => fmtR_isSome hf.1 hf.2.1 hf.2.2
  | .Xor r s t, hf => fmtR_isSome hf.1 hf.2.1 hf.2.2
  | .Srl r s t, hf => fmtR_isSome hf.1 hf.2.1 hf.2.2
  | .Sra r s t, hf => fmtR_isSome hf.1 hf.2.1 hf.2.2
  | .Or r s t, hf => fmtR_isSome hf.1 hf.2.1 hf.2.2
  | .And r s t, hf => fmtR_isSome hf.1 hf.2.1 hf.2.2
  | .FaddS r s t, hf => fmtR_isSome hf.1 hf.2.1 hf.2.2
  | .FsubS r s t, hf => fmtR_isSome hf.1 hf.2.1 hf.2.2
  | .FmulS r s t, hf => fmtR_isSome hf.1 hf.2.1 hf.2.2
  | .FdivS r s t, hf => fmtR_isSome hf.1 hf.2.1 hf.2.2
  | .FsgnjS r s t, hf => fmtR_isSome hf.1 hf.2.1 hf.2.2
  | .FsgnjnS r s t, hf => fmtR_isSome hf.1 hf.2.1 hf.2.2
  | .FsgnjxS r s t, hf => fmtR_isSome hf.1 hf.2.1 hf.2.2
  | .FminS r s t, hf => fmtR_isSome hf.1 hf.2.1 hf.2.2
  | .FmaxS r s t, hf => fmtR_isSome hf.1 hf.2.1 hf.2.2
  | .FeqS r s t, hf => fmtR_isSome hf.1 hf.2.1 hf.2.2
  | .FltS r s t, hf => fmtR_isSome hf.1 hf.2.1 hf.2.2
  | .FleS r s t, hf => fmtR_isSome hf.1 hf.2.1 hf.2.2
  | .FaddD r s t, hf => fmtR_isSome hf.1 hf.2.1 hf.2.2
  | .FsubD r s t, hf => fmtR_isSome hf.1 hf.2.1 hf.2.2
  | .FmulD r s t, hf => fmtR_isSome hf.1 hf.2.1 hf.2.2
  | .FdivD r s t, hf => fmtR_isSome hf.1 hf.2.1 hf.2.2
  | .FsgnjD r s t, hf => fmtR_isSome hf.1 hf.2.1 hf.2.2
  | .FsgnjnD r s t, hf => fmtR_isSome hf.1 hf.2.1 hf.2.2
  | .FsgnjxD r s t, hf => fmtR_isSome hf.1 hf.2.1 hf.2.2
  | .FminD r s t, hf => fmtR_isSome hf.1 hf.2.1 hf.2.2
  | .FmaxD r s t, hf => fmtR_isSome hf.1 hf.2.1 hf.2.2
  | .FeqD r s t, hf => fmtR_isSome hf.1 hf.2.1 hf.2.2
  | .FltD r s t, hf => fmtR_isSome hf.1 hf.2.1 hf.2.2
  | .FleD r s t, hf => fmtR_isSome hf.1 hf.2.1 hf.2.2
  | .Mul r s t, hf => fmtR_isSome hf.1 hf.2.1 hf.2.2
  | .Mulh r s t, hf => fmtR_isSome hf.1 hf.2.1 hf.2.2
  | .Mulsu r s t, hf => fmtR_isSome hf.1 hf.2.1 hf.2.2
  | .Mulu r s t, hf => fmtR_isSome hf.1 hf.2.1 hf.2.2
  | .Div r s t, hf => fmtR_isSome hf.1 hf.2.1 hf.2.2
  | .Divu r s t, hf => fmtR_isSome hf.1 hf.2.1 hf.2.2
  | .Rem r s t, hf => fmtR_isSome hf.1 hf.2.1 hf.2.2
  | .Remu r s t, hf => fmtR_isSome hf.1 hf.2.1 hf.2.2
  | .FmaddS r s t u, hf => fmtR4_isSome hf.1 hf.2.1 hf.2.2.1 hf.2.2.2
  | .FmsubS r s t u, hf => fmtR4_isSome hf.1 hf.2.1 hf.2.2.1 hf.2.2.2
  | .FnmaddS r s t u, hf => fmtR4_isSome hf.1 hf.2.1 hf.2.2.1 hf.2.2.2
  | .FnmsubS r s t u, hf => fmtR4_isSome hf.1 hf.2.1 hf.2.2.1 hf.2.2.2
  | .FmaddD r s t u, hf => fmtR4_isSome hf.1 hf.2.1 hf.2.2.1 hf.2.2.2
  | .FmsubD r s t u, hf => fmtR4_isSome hf.1 hf.2.1 hf.2.2.1 hf.2.2.2
  | .FnmaddD r s t u, hf => fmtR4_isSome hf.1 hf.2.1 hf.2.2.1 hf.2.2.2
  | .FnmsubD r s t u, hf => fmtR4_isSome hf.1 hf.2.1 hf.2.2.1 hf.2.2.2
  | .FsqrtS r s, hf => fmtRR_isSome hf.1 hf.2
  | .FcvtSW r s, hf => fmtRR_isSome hf.1 hf.2
  | .FcvtSWU r s, hf => fmtRR_isSome hf.1 hf.2
  | .FcvtWS r s, hf => fmtRR_isSome hf.1 hf.2
  | .FcvtWUS r s, hf => fmtRR_isSome hf.1 hf.2
  | .FcvtWD r s, hf => fmtRR_isSome hf.1 hf.2
  | .FcvtWUD r s, hf => fmtRR_isSome hf.1 hf.2
  | .FcvtDW r s, hf => fmtRR_isSome hf.1 hf.2
  | .FcvtDWU r s, hf => fmtRR_isSome hf.1 hf.2
  | .FmvXW r s, hf => fmtRR_isSome hf.1 hf.2
  | .FmvWX r s, hf => fmtRR_isSome hf.1 hf.2
  | .FClassS r s, hf => fmtRR_isSome hf.1 hf.2
  | .FsqrtD r s, hf => fmtRR_isSome hf.1 hf.2
  | .FClassD r s, hf => fmtRR_isSome hf.1 hf.2
  | .FcvtSD r s, hf => fmtRR_isSome hf.1 hf.2
  | .FcvtDS r s, hf => fmtRR_isSome hf.1 hf.2
  | .CsrRw r s i, hf => print_csr_isSome hf.1 hf.2.1
  | .CsrRs r s i, hf => print_csr_isSome hf.1 hf.2.1
  | .CsrRc r s i, hf => print_csr_isSome hf.1 hf.2.1
  | .CsrRwi r s i, hf => print_csr_isSome hf.1 hf.2.1
  | .CsrRsi r s i, hf => print_csr_isSome hf.1 hf.2.1
  | .CsrRci r s i, hf => print_csr_isSome hf.1 hf.2.1
  | .LrW r s t _ _, hf => fmtAmo_isSome hf.1 hf.2.1 hf.2.2
  | .ScW r s t _ _, hf => fmtAmo_isSome hf.1 hf.2.1 hf.2.2
  | .AmoswapW r s t _ _, hf => fmtAmo_isSome hf.1 hf.2.1 hf.2.2
  | .AmoaddW r s t _ _, hf => fmtAmo_isSome hf.1 hf.2.1 hf.2.2
  | .AmoandW r s t _ _, hf => fmtAmo_isSome hf.1 hf.2.1 hf.2.2
  | .AmoorW r s t _ _, hf => fmtAmo_isSome hf.1 hf.2.1 hf.2.2
  | .AmoxorW r s t _ _, hf => fmtAmo_isSome hf.1 hf.2.1 hf.2.2
  | .AmomaxW r s t _ _, hf => fmtAmo_isSome hf.1 hf.2.1 hf.2.2
  | .AmominW r s t _ _, hf => fmtAmo_isSome hf.1 hf.2.1 hf.2.2
  | .Jalr r s _, hf => fmtJalr_isSome hf.1 hf.2
  | .ECall, _ => rfl
  | .EBreak, _ => rfl
  | .SRet, _ => rfl
  | .MRet, _ => rfl
  | .SFenceVma, _ => rfl
  | .CNop, _ => rfl
  | .Fence _ _, _ => rfl
  | .FenceI _ _, _ => rfl

/-- C10 (amended): rendering is a pure function of the decoded value and
the lookup tables, and for every DecodedInstruction value whose
register-index fields are in [0, 31] — which holds for every value the
decoder produces — it never fails; a CSR-address immediate with no entry
in the CSR name table is rendered as its numeric value rather than
causing an error. -/
theorem render_total_in_range :
    (∀ (table : Nat → Option String) (i : InstructionDecoded),
      fieldsInRange i → (renderInstruction table i).isSome = true) ∧
    (∀ (table : Nat → Option String) (imm : Nat),
      table imm = none → csrDisplay table imm = toString imm) := by
  constructor
  · exact render_total_aux
  · intro table imm h
    unfold csrDisplay
    rw [h]
    rfl

theorem render_total_in_range_witness :
    fieldsInRange (.Lw 12 2 12) ∧
      (renderInstruction (fun _ => none) (.Lw 12 2 12)).isSome = true ∧
      ((fun _ => (none : Option String)) 0x7C0 = none ∧
        csrDisplay (fun _ => none) 0x7C0 = toString 0x7C0) :=
  ⟨by simp only [fieldsInRange]; omega,
    render_total_in_range.1 (fun _ => none) (.Lw 12 2 12)
      (by simp only [fieldsInRange]; omega),
    rfl, render_total_in_range.2 (fun _ => none) 0x7C0 rfl⟩
